import Mathlib

/-! # TimeSheetSystem front end

A shallow embedding of the React front end (`App.js`, `KioskView.js`,
`AdminDashboard.js`): component state is a record, every handler is a function
on that record returning the next state together with the effects it issues
(network requests, alerts, calls of sibling callbacks), and an `await` splits a
handler into the part that runs up to the call and the part that runs once the
call has settled.
-/

namespace TimeSheet

/-! ## JavaScript values -/

/-- Truthiness of a value that is a string, `null` or `undefined`: `none`
stands for `null`/`undefined`; the empty string is falsy as well. -/
def truthy : Option String → Bool
  | none => false
  | some s => s != ""

/-- The expression `x || d` for a string-or-undefined `x` and a string `d`. -/
def jsOr (x : Option String) (d : String) : String :=
  match x with
  | none => d
  | some s => if s != "" then s else d

/-- White space and line terminators, the characters `String.prototype.trim`
strips. -/
def isJsWhiteSpace (c : Char) : Bool :=
  c.toNat == 0x09 || c.toNat == 0x0A || c.toNat == 0x0B || c.toNat == 0x0C ||
  c.toNat == 0x0D || c.toNat == 0x20 || c.toNat == 0xA0 || c.toNat == 0x1680 ||
  (0x2000 ≤ c.toNat && c.toNat ≤ 0x200A) || c.toNat == 0x2028 || c.toNat == 0x2029 ||
  c.toNat == 0x202F || c.toNat == 0x205F || c.toNat == 0x3000 || c.toNat == 0xFEFF

/-- The method `s.trim()`. -/
def jsTrim (s : String) : String :=
  ⟨((s.data.dropWhile isJsWhiteSpace).reverse.dropWhile isJsWhiteSpace).reverse⟩

/-- The test `s.indexOf(sub) !== -1` on character lists. -/
def hasInfix (sub : List Char) : List Char → Bool
  | [] => sub.isEmpty
  | c :: cs => (c :: cs).take sub.length == sub || hasInfix sub cs

/-! ## HTTP -/

/-- The fields the front end reads from a JSON body: `error` and `message`,
each `none` when the body does not carry it. -/
structure Body where
  error : Option String
  message : Option String
  deriving DecidableEq, Repr

/-- What `fetch` resolves to. `json` is the outcome of `await response.json()`
followed by the field reads on its value: `Except.error m` when that throws an
exception with message `m` (a body that is no JSON, or a `null` body, whose
field read throws), the body otherwise. -/
structure Response where
  ok : Bool
  status : Nat
  json : Except String Body
  contentType : Option String

/-- How a `fetch` call settles: the promise rejects (transport failure) with an
error message, or it resolves to a response. -/
inductive Outcome where
  | rejected (message : String)
  | response (r : Response)

/-- A request handed to `fetch`: `body` lists the fields of the object given
to `JSON.stringify`, `none` when the request has no body. -/
structure Request where
  method : String
  url : String
  headers : List (String × String)
  body : Option (List (String × String))
  deriving DecidableEq, Repr

/-- The constant `API_BASE_URL`. -/
def API_BASE_URL : String := ""

/-- The value `apiFetch` resolves to: parsed JSON or the raw response. -/
inductive ApiResult where
  | json (b : Body)
  | raw (r : Response)

/-- The message of the fallback error of `apiFetch`. -/
def requestFailed (status : Nat) : String :=
  "Request failed with status " ++ toString status

/-- The part of `apiFetch` after the status check: a JSON content type gives
`response.json()`, anything else the response itself. -/
def apiFetchBody (response : Response) : Except String ApiResult :=
  match response.contentType with
  | some contentType =>
    if contentType != "" && hasInfix "application/json".data contentType.data then
      match response.json with
      | .ok b => .ok (.json b)
      | .error e => .error e
    else .ok (.raw response)
  | none => .ok (.raw response)

/-- The function `apiFetch` applied to the response `fetch` resolved to; the
result is the error message when it throws. On a non-success status the `try`
block reads the body and throws, and the `catch` around that same block
rethrows the fallback error. -/
def apiFetch (response : Response) : Except String ApiResult :=
  if !response.ok then
    let tryBlock : Except String Unit :=
      match response.json with
      | .error e => .error e
      | .ok errData => .error (jsOr errData.error (requestFailed response.status))
    match tryBlock with
    | .error _ => .error (requestFailed response.status)
    | .ok _ => apiFetchBody response
  else apiFetchBody response

/-- An `await apiFetch(url, options)` seen from its caller: `fetch` rejecting
propagates, a response goes through `apiFetch`. -/
def apiCall : Outcome → Except String ApiResult
  | .rejected m => .error m
  | .response r => apiFetch r

/-! ## App.js -/

/-- The three top-level views `App` renders. -/
inductive View where
  | adminLogin
  | adminDashboard
  | kiosk
  deriving DecidableEq, Repr

/-- The routing logic of `App`: `path` is the URL hash, `token` the session
token (`none` for `null`). -/
def App.view (path : String) (token : Option String) : View :=
  if path == "#/admin" && !truthy token then View.adminLogin
  else if truthy token then View.adminDashboard
  else View.kiosk

/-! ## KioskView.js: the pin buffer and submission -/

/-- The `type` of a kiosk message. -/
inductive MsgType where
  | info
  | success
  | error
  deriving DecidableEq, Repr

/-- The `message` state of the kiosk; `text` is `none` when the value put
there is `undefined`. -/
structure Message where
  text : Option String
  type : MsgType
  deriving DecidableEq, Repr

/-- The message shown when the kiosk is idle. -/
def defaultMessage : Message :=
  ⟨some "Enter your unique PIN to clock in or out.", MsgType.info⟩

/-- The message set when a submission starts. -/
def processingMessage : Message := ⟨some "Processing...", MsgType.info⟩

/-- The state of `KioskView` the handlers read and write. -/
structure Kiosk where
  pin : String
  message : Message
  isLoading : Bool
  isMessageVisible : Bool
  deriving DecidableEq, Repr

/-- The state `KioskView` mounts with. -/
def Kiosk.init : Kiosk := ⟨"", defaultMessage, false, true⟩

/-- The handler `handleKeyPress(value)`. -/
def handleKeyPress (value : String) (s : Kiosk) : Kiosk :=
  if s.isLoading then s
  else if s.pin.length < 6 then { s with pin := s.pin ++ value }
  else s

/-- The handler `handleClear`. -/
def handleClear (s : Kiosk) : Kiosk :=
  if s.isLoading then s else { s with pin := "" }

/-- The handler `handleDelete`: `prevPin.slice(0, -1)` drops the last
character. -/
def handleDelete (s : Kiosk) : Kiosk :=
  if s.isLoading then s else { s with pin := ⟨s.pin.data.dropLast⟩ }

/-- The request `handleSubmit` sends for a pin. -/
def kioskLoginRequest (pin : String) : Request :=
  { method := "POST"
    url := API_BASE_URL ++ "/api/auth/kiosk/login"
    headers := [("Content-Type", "application/json")]
    body := some [("pin", pin)] }

/-- The handler `handleSubmit` up to its `await fetch(...)`: the next state and
the requests handed to `fetch`. -/
def handleSubmit (s : Kiosk) : Kiosk × List Request :=
  if s.pin == "" || s.isLoading then (s, [])
  else ({ s with isLoading := true, message := processingMessage },
        [kioskLoginRequest s.pin])

/-- The body of the `try` block of `handleSubmit` once `fetch` has settled:
the body of a success response, or the message of the error thrown. -/
def handleSubmitTry : Outcome → Except String Body
  | .rejected m => .error m
  | .response r =>
    match r.json with
    | .error m => .error m
    | .ok data =>
      if !r.ok then .error (jsOr data.error "Clock action failed.")
      else .ok data

/-- The handler `handleSubmit` from the moment `fetch` settles: the `try`
block sets the success message, the `catch` the error message, the `finally`
clears `isLoading` and the pin. -/
def handleSubmitSettled (o : Outcome) (s : Kiosk) : Kiosk :=
  let s1 : Kiosk :=
    match handleSubmitTry o with
    | .ok data => { s with message := ⟨data.message, MsgType.success⟩ }
    | .error m => { s with message := ⟨some m, MsgType.error⟩ }
  { s1 with isLoading := false, pin := "" }

/-- Line terminators, the characters the pattern `.` does not match. -/
def isLineTerminator (c : Char) : Bool :=
  c.toNat == 0x0A || c.toNat == 0x0D || c.toNat == 0x2028 || c.toNat == 0x2029

/-- The masked display `pin.replace(/./g, '●')`. -/
def maskPin (pin : String) : String :=
  ⟨pin.data.map (fun c => if isLineTerminator c then c else '●')⟩

/-- The string a keypad button passes to `handleKeyPress`: `String(i + 1)` for
the nine buttons of the grid and `"0"`. -/
def digitValue (d : Fin 10) : String := toString d.val

/-- The inputs of the kiosk pin machine. -/
inductive KioskEvent where
  | digit (d : Fin 10)
  | delete
  | clear
  | submit
  | submitResolved (o : Outcome)

/-- One input handled on the kiosk state. -/
def Kiosk.step (s : Kiosk) : KioskEvent → Kiosk
  | .digit d => handleKeyPress (digitValue d) s
  | .delete => handleDelete s
  | .clear => handleClear s
  | .submit => (handleSubmit s).1
  | .submitResolved o => handleSubmitSettled o s

/-- The state after a sequence of inputs, starting from `Kiosk.init`. -/
def Kiosk.run (events : List KioskEvent) : Kiosk :=
  events.foldl Kiosk.step Kiosk.init

/-- The invariant of the pin buffer: at most six characters, all digits. -/
def PinOk (s : Kiosk) : Prop :=
  s.pin.length ≤ 6 ∧ ∀ c ∈ s.pin.data, c.isDigit = true

/-! ## KioskView.js: the message reset effect and its timers -/

/-- What a pending timeout of the message effect does when it fires: the
4000 ms callback hides the message and starts the 300 ms timeout, the 300 ms
callback sets the default message. -/
inductive TimerAction where
  | fade
  | reset
  deriving DecidableEq, Repr

/-- A pending `setTimeout`: its handle, the time (ms) it is due, its callback,
and `gen`, the number of the `setMessage` call whose effect run started it
(the 300 ms timeout carries the number of the 4000 ms one that started it). -/
structure Timer where
  id : Nat
  due : Nat
  action : TimerAction
  gen : Nat
  deriving DecidableEq, Repr

/-- A mounted `KioskView` in time: the component state, the clock, the pending
timeouts, the handle `timer` the cleanup of the last effect run will clear
(`none` when that run returned no cleanup), and `gen`, the number of
`setMessage` calls so far. -/
structure KioskRun where
  ui : Kiosk
  now : Nat
  nextId : Nat
  timers : List Timer
  cleanup : Option Nat
  gen : Nat
  mounted : Bool
  deriving DecidableEq, Repr

/-- The call `clearTimeout(id)`. -/
def clearTimeout (id : Nat) (timers : List Timer) : List Timer :=
  timers.filter (fun t => t.id != id)

/-- The cleanup of the last run of the message effect. -/
def runCleanup (s : KioskRun) : KioskRun :=
  match s.cleanup with
  | some id => { s with timers := clearTimeout id s.timers, cleanup := none }
  | none => s

/-- The state after `setMessage(m)` and the re-render: the cleanup of the
previous run of the effect on `[message]`, then the effect itself, which shows
the message and, for a success or error message, starts the 4000 ms timeout and
returns the cleanup that clears it. -/
def setMessage (m : Message) (s : KioskRun) : KioskRun :=
  let s1 := runCleanup s
  let ui : Kiosk := { s1.ui with message := m, isMessageVisible := true }
  if m.type == MsgType.success || m.type == MsgType.error then
    { s1 with
      ui := ui
      gen := s1.gen + 1
      timers := s1.timers ++ [⟨s1.nextId, s1.now + 4000, TimerAction.fade, s1.gen + 1⟩]
      nextId := s1.nextId + 1
      cleanup := some s1.nextId }
  else { s1 with ui := ui, gen := s1.gen + 1 }

/-- The callback of a timeout, run when it fires; the timeout leaves the
pending list. A state setter called on an unmounted component changes nothing,
the nested `setTimeout` is started all the same. -/
def fireTimer (t : Timer) (s : KioskRun) : KioskRun :=
  let s1 := { s with timers := clearTimeout t.id s.timers }
  match t.action with
  | .fade =>
    { s1 with
      ui := if s1.mounted then { s1.ui with isMessageVisible := false } else s1.ui
      timers := s1.timers ++ [⟨s1.nextId, s1.now + 300, TimerAction.reset, t.gen⟩]
      nextId := s1.nextId + 1 }
  | .reset => if s1.mounted then setMessage defaultMessage s1 else s1

/-- The events of a kiosk in time: a user input or a settled call, time
passing, a due timeout firing, and the component unmounting. -/
inductive RunEvent where
  | input (e : KioskEvent)
  | elapse (ms : Nat)
  | fire (id : Nat)
  | unmount

/-- The state `KioskView` mounts with at time 0: the effect has run once for
the default message and started no timeout. -/
def KioskRun.init : KioskRun :=
  { ui := Kiosk.init, now := 0, nextId := 0, timers := [], cleanup := none,
    gen := 0, mounted := true }

/-- One event of a kiosk in time; `none` when the event cannot happen in the
state: time cannot pass beyond a pending timeout without it firing, a timeout
fires only once due, and an unmounted component takes no input. Handlers that
call `setMessage` go through the message effect. -/
def KioskRun.step (s : KioskRun) : RunEvent → Option KioskRun
  | .input e =>
    if !s.mounted then none
    else match e with
      | .submit =>
        if s.ui.pin == "" || s.ui.isLoading then some s
        else
          let ui := (handleSubmit s.ui).1
          some (setMessage ui.message { s with ui := ui })
      | .submitResolved o =>
        let ui := handleSubmitSettled o s.ui
        some (setMessage ui.message { s with ui := ui })
      | e => some { s with ui := s.ui.step e }
  | .elapse ms =>
    if s.timers.all (fun t => s.now + ms ≤ t.due) then some { s with now := s.now + ms }
    else none
  | .fire id =>
    match s.timers.find? (fun t => t.id == id) with
    | some t =>
      if t.due ≤ s.now then some (fireTimer t s) else none
    | none => none
  | .unmount =>
    if s.mounted then some { runCleanup s with mounted := false } else none

/-- The state after a sequence of events from the mounted kiosk, `none` when
one of them cannot happen. -/
def KioskRun.run (events : List RunEvent) : Option KioskRun :=
  events.foldlM KioskRun.step KioskRun.init

/-! ## AdminDashboard.js: AuditLogView pagination -/

/-- The `disabled` attribute of the Previous button: `currentPage === 0`. -/
def previousDisabled (currentPage : Int) : Bool := currentPage == 0

/-- The `disabled` attribute of the Next button:
`currentPage >= logData.totalPages - 1`. -/
def nextDisabled (currentPage totalPages : Int) : Bool :=
  decide (currentPage ≥ totalPages - 1)

/-! ## AdminDashboard.js: UserManagementView -/

/-- A row of the user list. -/
structure ManagedUser where
  id : Nat
  email : String
  role : String
  deriving DecidableEq, Repr

/-- The `type` of the modal state when a dialog is open. -/
inductive ModalType where
  | resetPin
  | delete
  deriving DecidableEq, Repr

/-- The `context` of an open dialog; `userRole` is `none` for the delete
dialog, whose context is `{ userId }`. -/
structure ModalContext where
  userId : Nat
  userRole : Option String
  deriving DecidableEq, Repr

/-- The `modalState` of `UserManagementView`; `none` stands for `null`. -/
structure ModalState where
  type : Option ModalType
  context : Option ModalContext
  deriving DecidableEq, Repr

/-- The closed modal state `{ type: null, context: null }`. -/
def ModalState.closed : ModalState := ⟨none, none⟩

/-- The state of `UserManagementView` its dialog handlers read and write. -/
structure UserMgmt where
  users : List ManagedUser
  modalState : ModalState
  deriving DecidableEq, Repr

/-- What a handler does besides changing state: a request handed to `fetch`
through `apiFetch`, a blocking `alert`, a call of `loadUsers`, a call of the
`refreshData` callback of the dashboard. -/
inductive Effect where
  | request (r : Request)
  | alert (message : String)
  | loadUsers
  | refreshData
  deriving DecidableEq, Repr

/-- The request `confirmResetPin` sends. -/
def resetPinRequest (token : String) (userId : Nat) (newPin : String) : Request :=
  { method := "POST"
    url := API_BASE_URL ++ "/api/admin/users/" ++ toString userId ++ "/reset-pin"
    headers := [("Content-Type", "application/json"), ("Authorization", "Bearer " ++ token)]
    body := some [("newPin", newPin)] }

/-- The request `confirmDeleteUser` sends. -/
def deleteUserRequest (token : String) (userId : Nat) : Request :=
  { method := "DELETE"
    url := API_BASE_URL ++ "/api/admin/users/" ++ toString userId
    headers := [("Authorization", "Bearer " ++ token)]
    body := none }

/-- The handler `handleResetPin(userId, userRole)`. -/
def handleResetPin (userId : Nat) (userRole : String) (s : UserMgmt) : UserMgmt × List Effect :=
  ({ s with modalState := ⟨some ModalType.resetPin, some ⟨userId, some userRole⟩⟩ }, [])

/-- The handler `handleDeleteUser(userId)`. -/
def handleDeleteUser (userId : Nat) (s : UserMgmt) : UserMgmt × List Effect :=
  ({ s with modalState := ⟨some ModalType.delete, some ⟨userId, none⟩⟩ }, [])

/-- The `onCancel` callback of both dialogs. -/
def cancelModal (s : UserMgmt) : UserMgmt × List Effect :=
  ({ s with modalState := ModalState.closed }, [])

/-- The handler `confirmResetPin(newPin)` up to its `await`; destructuring a
`null` context throws, which leaves the state as it is and issues nothing. -/
def confirmResetPin (token : String) (newPin : String) (s : UserMgmt) :
    UserMgmt × List Effect :=
  if newPin == "" || jsTrim newPin == "" then
    ({ s with modalState := ModalState.closed }, [])
  else
    match s.modalState.context with
    | none => (s, [])
    | some ctx => (s, [Effect.request (resetPinRequest token ctx.userId newPin)])

/-- The handler `confirmResetPin` from the moment its call settles. -/
def confirmResetPinSettled (o : Outcome) (s : UserMgmt) : UserMgmt × List Effect :=
  let effects : List Effect :=
    match apiCall o with
    | .ok _ => [Effect.alert "Credentials have been reset successfully."]
    | .error m => [Effect.alert m]
  ({ s with modalState := ModalState.closed }, effects)

/-- The handler `confirmDeleteUser` up to its `await`. -/
def confirmDeleteUser (token : String) (s : UserMgmt) : UserMgmt × List Effect :=
  match s.modalState.context with
  | none => (s, [])
  | some ctx => (s, [Effect.request (deleteUserRequest token ctx.userId)])

/-- The handler `confirmDeleteUser` from the moment its call settles. -/
def confirmDeleteUserSettled (o : Outcome) (s : UserMgmt) : UserMgmt × List Effect :=
  let effects : List Effect :=
    match apiCall o with
    | .ok _ => [Effect.loadUsers, Effect.refreshData]
    | .error m => [Effect.alert m]
  ({ s with modalState := ModalState.closed }, effects)

/-- What the user can do in `UserManagementView` with its dialogs: press a
row button, cancel or confirm the open dialog; and the two calls settling. -/
inductive UserMgmtEvent where
  | pressResetPin (userId : Nat) (userRole : String)
  | pressDelete (userId : Nat)
  | cancel
  | confirmDelete
  | confirmReset (newPin : String)
  | deleteSettled (o : Outcome)
  | resetSettled (o : Outcome)

/-- One event of `UserManagementView`, as the component wires it: the confirm
dialog, with `confirmDeleteUser` and the cancel callback, is rendered only
while `modalState.type === 'delete'`, the prompt dialog, with `confirmResetPin`
and the cancel callback, only while `modalState.type === 'resetPin'`. -/
def UserMgmt.step (token : String) (s : UserMgmt) : UserMgmtEvent → UserMgmt × List Effect
  | .pressResetPin userId userRole => handleResetPin userId userRole s
  | .pressDelete userId => handleDeleteUser userId s
  | .cancel => if s.modalState.type.isSome then cancelModal s else (s, [])
  | .confirmDelete =>
    if s.modalState.type == some ModalType.delete then confirmDeleteUser token s else (s, [])
  | .confirmReset newPin =>
    if s.modalState.type == some ModalType.resetPin then confirmResetPin token newPin s
    else (s, [])
  | .deleteSettled o => confirmDeleteUserSettled o s
  | .resetSettled o => confirmResetPinSettled o s


/-! ## App.js: session token and navigation -/

/-- The scoped storage of the tab: the value stored under `authToken`, and
whether access to the storage throws (private browsing). -/
structure Storage where
  authToken : Option String
  throws : Bool
  deriving DecidableEq, Repr

/-- The call `sessionStorage.getItem('authToken')`. -/
def Storage.getItem (st : Storage) : Except String (Option String) :=
  if st.throws then .error "SecurityError" else .ok st.authToken

/-- The call `sessionStorage.setItem('authToken', value)`; a value that is
`undefined` is stored as the string "undefined". -/
def Storage.setItem (st : Storage) (value : Option String) : Except String Storage :=
  if st.throws then .error "SecurityError"
  else .ok { st with authToken := some (value.getD "undefined") }

/-- The call `sessionStorage.removeItem('authToken')`. -/
def Storage.removeItem (st : Storage) : Except String Storage :=
  if st.throws then .error "SecurityError" else .ok { st with authToken := none }

/-- A `try` block with its `catch`: the handler runs on the error thrown. -/
def tryCatch {α : Type} (body : Except String α) (handler : String → Except String α) :
    Except String α :=
  match body with
  | .ok a => .ok a
  | .error e => handler e

/-- The initial value of the `token` state of `App`; `Except.error` would be an
exception leaving the initialiser. -/
def initialToken (st : Storage) : Except String (Option String) :=
  tryCatch st.getItem (fun _ => .ok none)

/-- The state of `App`: the current path of `useHashNavigation`, the token, and
the storage behind it. -/
structure AppState where
  path : String
  token : Option String
  storage : Storage
  deriving DecidableEq, Repr

/-- The value of `window.location.hash` after the assignment
`window.location.hash = value`. -/
def setHash (value : String) : String :=
  if value == "" || value == "#" then ""
  else if value.data.head? == some '#' then value
  else "#" ++ value

/-- The function `navigate(path)` followed by the `hashchange` listener, which
sets the current path to `window.location.hash || '#/'`. -/
def navigate (path : String) (s : AppState) : AppState :=
  { s with path := if setHash path == "" then "#/" else setHash path }

/-- The callback `handleLoginSuccess(jwtToken)`. -/
def handleLoginSuccess (jwtToken : Option String) (s : AppState) : Except String AppState := do
  let storage ← tryCatch (s.storage.setItem jwtToken) (fun _ => .ok s.storage)
  pure (navigate "/dashboard" { s with storage := storage, token := jwtToken })

/-- The callback `handleLogout`. -/
def handleLogout (s : AppState) : Except String AppState := do
  let storage ← tryCatch s.storage.removeItem (fun _ => .ok s.storage)
  pure (navigate "/" { s with storage := storage, token := none })

/-- The view `App` renders in a state. -/
def AppState.view (s : AppState) : View := App.view s.path s.token

/-! ## Dates

Time values are milliseconds since the epoch, as in ECMAScript; the functions
below follow its date algorithms. The methods of this section take the host
time zone as a constant offset `tz` from UTC in milliseconds (`LocalTZA`); the
section on time zones below has them for a zone whose offset changes.
`TimeClip`, the bound of 8.64e15 ms on a time value, is not part of the
model. -/

/-- The day number of a time value. -/
def Day (t : Int) : Int := t / 86400000

/-- The milliseconds of a time value within its day. -/
def TimeWithinDay (t : Int) : Int := t % 86400000

/-- The weekday of a time value, 0 for Sunday. -/
def WeekDay (t : Int) : Int := (Day t + 4) % 7

/-- The time within a day of an hour, minute, second and millisecond. -/
def MakeTime (hour min sec ms : Int) : Int :=
  hour * 3600000 + min * 60000 + sec * 1000 + ms

/-- The time value of a day number and a time within the day. -/
def MakeDate (day time : Int) : Int := day * 86400000 + time

/-- Local time of a UTC time value. -/
def LocalTime (tz t : Int) : Int := t + tz

/-- The UTC time value of a local time. -/
def UTC (tz t : Int) : Int := t - tz

/-- A calendar date: year, month (1 to 12) and day of the month. -/
structure Civil where
  year : Int
  month : Int
  day : Int
  deriving DecidableEq, Repr

/-- The calendar date of a day number (days since 1970-01-01) in the proleptic
Gregorian calendar. -/
def civilFromDays (z : Int) : Civil :=
  let z1 := z + 719468
  let era := z1 / 146097
  let doe := z1 - era * 146097
  let yoe := (doe - doe / 1460 + doe / 36524 - doe / 146096) / 365
  let doy := doe - (365 * yoe + yoe / 4 - yoe / 100)
  let mp := (5 * doy + 2) / 153
  let d := doy - (153 * mp + 2) / 5 + 1
  let m := if mp < 10 then mp + 3 else mp - 9
  ⟨(if m ≤ 2 then yoe + era * 400 + 1 else yoe + era * 400), m, d⟩

/-- The day number of a calendar date. -/
def daysFromCivil (c : Civil) : Int :=
  let y := if c.month ≤ 2 then c.year - 1 else c.year
  let era := y / 400
  let yoe := y - era * 400
  let doy := (153 * (if c.month > 2 then c.month - 3 else c.month + 9) + 2) / 5 + c.day - 1
  let doe := yoe * 365 + yoe / 4 - yoe / 100 + doy
  era * 146097 + doe - 719468

/-- The day of the month of a time value. -/
def DateFromTime (t : Int) : Int := (civilFromDays (Day t)).day

/-- The method `getDate()` of a date with time value `t`. -/
def getDate (tz t : Int) : Int := DateFromTime (LocalTime tz t)

/-- The method `getDay()`. -/
def getDay (tz t : Int) : Int := WeekDay (LocalTime tz t)

/-- The method `setDate(dt)`, returning the new time value: day `dt` of the
month of the local date, whose first day has the day number
`Day(t) - DateFromTime(t) + 1`, at the same local time of day. -/
def setDate (tz t dt : Int) : Int :=
  let tl := LocalTime tz t
  UTC tz (MakeDate (Day tl - DateFromTime tl + dt) (TimeWithinDay tl))

/-- The method `setHours(hour, min, sec, ms)`, returning the new time value. -/
def setHours (tz t hour min sec ms : Int) : Int :=
  UTC tz (MakeDate (Day (LocalTime tz t)) (MakeTime hour min sec ms))

/-- A number written in decimal, padded with zeros on the left to `width`. -/
def padZero (width : Nat) (n : Int) : String :=
  let digits := toString n.toNat
  ⟨List.replicate (width - digits.length) '0'⟩ ++ digits

/-- The method `toISOString()`: the UTC date and time of the time value. -/
def toISOString (t : Int) : String :=
  let c := civilFromDays (Day t)
  let tw := TimeWithinDay t
  let year :=
    if 0 ≤ c.year ∧ c.year ≤ 9999 then padZero 4 c.year
    else (if c.year < 0 then "-" else "+") ++ padZero 6 c.year.natAbs
  year ++ "-" ++ padZero 2 c.month ++ "-" ++ padZero 2 c.day ++ "T" ++
    padZero 2 (tw / 3600000) ++ ":" ++ padZero 2 (tw / 60000 % 60) ++ ":" ++
    padZero 2 (tw / 1000 % 60) ++ "." ++ padZero 3 (tw % 1000) ++ "Z"

/-- The expression `s.slice(0, 19)`. -/
def slice19 (s : String) : String := ⟨s.data.take 19⟩

/-- The expression `s.split('T')[0]`. -/
def beforeT (s : String) : String := ⟨s.data.takeWhile (fun c => c != 'T')⟩

/-- The number a string of decimal digits writes, `none` for any other
string. -/
def digitsValue (cs : List Char) : Option Nat :=
  if cs.isEmpty then none
  else cs.foldl (fun acc c =>
    match acc with
    | some n => if c.isDigit then some (n * 10 + (c.toNat - 48)) else none
    | none => none) (some 0)

/-- The number of days of a month. -/
def daysInMonth (year month : Int) : Int :=
  if month = 2 then
    (if year % 4 = 0 ∧ (year % 100 ≠ 0 ∨ year % 400 = 0) then 29 else 28)
  else if month = 4 ∨ month = 6 ∨ month = 9 ∨ month = 11 then 30
  else 31

/-- The time value of `new Date(value)` for the value of a date input, a
string `YYYY-MM-DD`: midnight UTC of that date; `none` (an invalid date) for a
string that is not a date of this form. -/
def parseDateInput (value : String) : Option Int :=
  match value.data with
  | [y1, y2, y3, y4, '-', m1, m2, '-', d1, d2] =>
    match digitsValue [y1, y2, y3, y4], digitsValue [m1, m2], digitsValue [d1, d2] with
    | some y, some m, some d =>
      if 1 ≤ m ∧ m ≤ 12 ∧ 1 ≤ d ∧ (d : Int) ≤ daysInMonth y m then
        some (MakeDate (daysFromCivil ⟨y, m, d⟩) 0)
      else none
    | _, _, _ => none
  | _ => none

/-! ## Time zones -/

/-- A host time zone: `localTZA t isUTC` is the offset of local time from UTC
in milliseconds, at the UTC time value `t` when `isUTC`, and for the local time
`t` otherwise (`LocalTZA`). -/
structure TimeZone where
  localTZA : Int → Bool → Int

/-- A zone of constant offset. -/
def TimeZone.fixed (offset : Int) : TimeZone := ⟨fun _ _ => offset⟩

/-- A zone whose offset changes once, at the UTC time value `instant`, from
`before` to `after`. A local time that the change skips (the offset grows) or
repeats (it shrinks) is read with the offset before the change. -/
def TimeZone.transition (instant before after : Int) : TimeZone :=
  ⟨fun t isUTC =>
    if isUTC then (if t < instant then before else after)
    else (if t < instant + max before after then before else after)⟩

/-- Local time of a UTC time value in a zone. -/
def TimeZone.localTime (z : TimeZone) (t : Int) : Int := t + z.localTZA t true

/-- The UTC time value of a local time in a zone. -/
def TimeZone.utc (z : TimeZone) (t : Int) : Int := t - z.localTZA t false

/-- The method `getDate()` in a zone. -/
def TimeZone.getDate (z : TimeZone) (t : Int) : Int := DateFromTime (z.localTime t)

/-- The method `getDay()` in a zone. -/
def TimeZone.getDay (z : TimeZone) (t : Int) : Int := WeekDay (z.localTime t)

/-- The method `setDate(dt)` in a zone, returning the new time value: day `dt`
of the month of the local date at the same local time of day, read back as a
UTC time value by the rules of the zone. -/
def TimeZone.setDate (z : TimeZone) (t dt : Int) : Int :=
  let tl := z.localTime t
  z.utc (MakeDate (Day tl - DateFromTime tl + dt) (TimeWithinDay tl))

/-! ## AdminDashboard.js: TimesheetView -/

/-- The function `getMonday(d)`: the time value of the date returned, and the
time value of the caller's date object after the call. The assignment
`d = new Date(d)` makes the function work on a copy. -/
def getMonday (tz d : Int) : Int × Int :=
  let copy := d
  let day := getDay tz copy
  let diff := getDate tz copy - day + (if day = 0 then -6 else 1)
  (setDate tz copy diff, d)

/-- The state update of `changeWeek(offset)` applied to the week start, in
the time zone of the host. -/
def changeWeek (z : TimeZone) (offset prevDate : Int) : Int :=
  let newDate := prevDate
  z.setDate newDate (z.getDate prevDate + offset)

/-- A call of `downloadFile(url, filename, token)`: the path of the URL, its
query parameters before URL encoding, and the suggested file name. -/
structure Download where
  path : String
  query : List (String × String)
  filename : String
  deriving DecidableEq, Repr

/-- The time value `start` of `handleDownload`. -/
def downloadStart (tz weekStartDate : Int) : Int :=
  setHours tz weekStartDate 0 0 0 0

/-- The time value `end` of `handleDownload`. -/
def downloadEnd (tz weekStartDate : Int) : Int :=
  let start := downloadStart tz weekStartDate
  setHours tz (setDate tz start (getDate tz start + 6)) 23 59 59 999

/-- The handler `handleDownload` of the timesheet view. -/
def handleDownload (tz weekStartDate : Int) : Download :=
  let start := downloadStart tz weekStartDate
  let stop := downloadEnd tz weekStartDate
  { path := API_BASE_URL ++ "/api/admin/timesheets/export"
    query := [("startDate", slice19 (toISOString start)),
              ("endDate", slice19 (toISOString stop))]
    filename := "timesheet_export_" ++ beforeT (toISOString start) ++ "_to_" ++
      beforeT (toISOString stop) ++ ".csv" }

/-! ## AdminDashboard.js: ExportsView -/

/-- What a handler of the exports view does: a blocking alert or a download. -/
inductive ExportEffect where
  | alert (message : String)
  | download (d : Download)
  deriving DecidableEq, Repr

/-- The function `handleExport(start, end, type)`. -/
def handleExport (start stop : Int) (type : String) : Download :=
  { path := API_BASE_URL ++ "/api/admin/" ++ type ++ "/export"
    query := [("startDate", slice19 (toISOString start)),
              ("endDate", slice19 (toISOString stop))]
    filename := type ++ "_export_" ++ beforeT (toISOString start) ++ "_to_" ++
      beforeT (toISOString stop) ++ ".csv" }

/-- The time values `start` and `end` of `handleExportCustomRange` for two
dates that parse. -/
def customRange (tz : Int) (startDate endDate : String) : Option (Int × Int) :=
  match parseDateInput startDate, parseDateInput endDate with
  | some s, some e => some (setHours tz s 0 0 0 0, setHours tz e 23 59 59 999)
  | _, _ => none

/-- The function `handleExportCustomRange(type, startDate, endDate)`; a date
that does not parse makes `toISOString` throw. -/
def handleExportCustomRange (tz : Int) (type startDate endDate : String) :
    Except String (List ExportEffect) :=
  if startDate == "" || endDate == "" then
    .ok [ExportEffect.alert "Please select both a start and end date."]
  else
    match customRange tz startDate endDate with
    | some (start, stop) => .ok [ExportEffect.download (handleExport start stop type)]
    | none => .error "Invalid time value"

/-! ## AdminDashboard.js: AddUserForm -/

/-- The state of `AddUserForm`. -/
structure AddUserForm where
  email : String
  pin : String
  role : String
  error : String
  isLoading : Bool
  deriving DecidableEq, Repr

/-- What `handleSubmit` of the form does besides changing state. -/
inductive FormEffect where
  | request (r : Request)
  | onUserAdded
  deriving DecidableEq, Repr

/-- The request `handleSubmit` of the form sends. -/
def createUserRequest (token : String) (f : AddUserForm) : Request :=
  { method := "POST"
    url := API_BASE_URL ++ "/api/admin/users"
    headers := [("Content-Type", "application/json"), ("Authorization", "Bearer " ++ token)]
    body := some [("email", f.email), ("pin", f.pin), ("role", f.role)] }

/-- The handler `handleSubmit` of the form up to its `await`. -/
def AddUserForm.handleSubmit (token : String) (f : AddUserForm) :
    AddUserForm × List FormEffect :=
  ({ f with isLoading := true, error := "" }, [FormEffect.request (createUserRequest token f)])

/-- The handler `handleSubmit` of the form from the moment its call settles. -/
def AddUserForm.handleSubmitSettled (o : Outcome) (f : AddUserForm) :
    AddUserForm × List FormEffect :=
  match apiCall o with
  | .ok _ => ({ f with isLoading := false }, [FormEffect.onUserAdded])
  | .error m => ({ f with error := m, isLoading := false }, [])

/-- A mounted form together with the number of create calls in flight. -/
structure AddUserRun where
  form : AddUserForm
  inFlight : Nat
  deriving DecidableEq, Repr

/-- What happens to a mounted form: the user edits a field, a submit event
of the form reaches `handleSubmit`, a call in flight settles. -/
inductive AddUserEvent where
  | edit (email pin role : String)
  | submit
  | settled (o : Outcome)

/-- The state the form mounts with. -/
def AddUserRun.init : AddUserRun := ⟨⟨"", "", "ROLE_EMPLOYEE", "", false⟩, 0⟩

/-- The number of requests among the effects of a handler. -/
def requestCount (effects : List FormEffect) : Nat :=
  (effects.filter (fun e => match e with | .request _ => true | .onUserAdded => false)).length

/-- The `disabled` attribute of the Save button: `isLoading`. -/
def saveDisabled (f : AddUserForm) : Bool := f.isLoading

/-- One event of the form: a submit event runs `handleSubmit`, which has no
test of `isLoading`; a call settles only when one is in flight. -/
def AddUserRun.step (token : String) (s : AddUserRun) : AddUserEvent → AddUserRun
  | .edit email pin role => { s with form := { s.form with email := email, pin := pin, role := role } }
  | .submit =>
    let r := s.form.handleSubmit token
    { form := r.1, inFlight := s.inFlight + requestCount r.2 }
  | .settled o =>
    if s.inFlight = 0 then s
    else { form := (s.form.handleSubmitSettled o).1, inFlight := s.inFlight - 1 }

/-- The state of the form after a sequence of events. -/
def AddUserRun.run (token : String) (events : List AddUserEvent) : AddUserRun :=
  events.foldl (AddUserRun.step token) AddUserRun.init

/-- The dialogs `UserManagementView` renders for a modal state: the confirm
dialog while the type is `delete`, the prompt dialog while it is `resetPin`. -/
def renderedDialogs (m : ModalState) : List ModalType :=
  (if m.type == some ModalType.delete then [ModalType.delete] else []) ++
  (if m.type == some ModalType.resetPin then [ModalType.resetPin] else [])

/-! ## KioskView.js: keyboard input -/

/-- The comparison `a < b` of two strings: by the first position where they
differ, a proper initial part of a string being smaller than the string. -/
def jsStrLt : List Char → List Char → Bool
  | _, [] => false
  | [], _ :: _ => true
  | a :: as, b :: bs => decide (a.toNat < b.toNat) || (a.toNat == b.toNat && jsStrLt as bs)

/-- The comparison `a >= b` of two strings. -/
def jsStrGe (a b : String) : Bool := !jsStrLt a.data b.data

/-- The comparison `a <= b` of two strings. -/
def jsStrLe (a b : String) : Bool := !jsStrLt b.data a.data

/-- The test `event.key >= '0' && event.key <= '9'` of `handleKeyDown`. -/
def isDigitKey (key : String) : Bool := jsStrGe key "0" && jsStrLe key "9"

/-- The listener `handleKeyDown(event)` for an event with the given `key`:
the next state and the requests handed to `fetch`. -/
def handleKeyDown (key : String) (s : Kiosk) : Kiosk × List Request :=
  if isDigitKey key then (handleKeyPress key s, [])
  else if key == "Enter" then handleSubmit s
  else if key == "Backspace" then (handleDelete s, [])
  else if key == "Escape" then (handleClear s, [])
  else (s, [])

/-! ## Helper lemmas -/

theorem truthy_eq_false_iff (token : Option String) :
    truthy token = false ↔ token = none ∨ token = some "" := by
  cases token with
  | none => simp [truthy]
  | some s => simp [truthy]

theorem jsOr_of_truthy (e d : String) (h : e ≠ "") : jsOr (some e) d = e := by
  simp [jsOr, h]

theorem apiFetch_not_ok (r : Response) (h : r.ok = false) :
    apiFetch r = .error (requestFailed r.status) := by
  unfold apiFetch
  rw [h]
  cases r.json <;> rfl

theorem digitValue_data (d : Fin 10) :
    (digitValue d).length = 1 ∧ ∀ c ∈ (digitValue d).data, c.isDigit = true := by
  revert d
  decide

theorem PinOk_init : PinOk Kiosk.init := by
  constructor
  · decide
  · intro c hc
    simp [Kiosk.init] at hc

theorem PinOk_step (s : Kiosk) (e : KioskEvent) (h : PinOk s) : PinOk (s.step e) := by
  obtain ⟨hlen, hdig⟩ := h
  cases e with
  | digit d =>
    obtain ⟨h1, h2⟩ := digitValue_data d
    simp only [Kiosk.step, handleKeyPress]
    split
    · exact ⟨hlen, hdig⟩
    · split
      · rename_i hlt
        refine ⟨?_, ?_⟩
        · simp only [String.length_append]
          omega
        · intro c hc
          simp only [String.data_append, List.mem_append] at hc
          rcases hc with hc | hc
          · exact hdig c hc
          · exact h2 c hc
      · exact ⟨hlen, hdig⟩
  | delete =>
    simp only [Kiosk.step, handleDelete]
    split
    · exact ⟨hlen, hdig⟩
    · refine ⟨?_, ?_⟩
      · have : s.pin.data.length ≤ 6 := hlen
        simp only [String.length, List.length_dropLast]
        omega
      · intro c hc
        exact hdig c (List.dropLast_subset _ hc)
  | clear =>
    simp only [Kiosk.step, handleClear]
    split
    · exact ⟨hlen, hdig⟩
    · exact ⟨Nat.zero_le 6, by intro c hc; simp at hc⟩
  | submit =>
    simp only [Kiosk.step, handleSubmit]
    split
    · exact ⟨hlen, hdig⟩
    · exact ⟨hlen, hdig⟩
  | submitResolved o =>
    simp only [Kiosk.step, handleSubmitSettled]
    exact ⟨Nat.zero_le 6, by intro c hc; simp at hc⟩

theorem PinOk_foldl (events : List KioskEvent) (s : Kiosk) (h : PinOk s) :
    PinOk (events.foldl Kiosk.step s) := by
  induction events generalizing s with
  | nil => exact h
  | cons e rest ih => exact ih (s.step e) (PinOk_step s e h)

theorem isDigit_not_lineTerminator (c : Char) (h : c.isDigit = true) :
    isLineTerminator c = false := by
  have h1 : 48 ≤ c.val ∧ c.val ≤ 57 := by
    simpa [Char.isDigit] using h
  have h2 : 48 ≤ c.toNat ∧ c.toNat ≤ 57 := by
    obtain ⟨a, b⟩ := h1
    exact ⟨a, b⟩
  simp only [isLineTerminator, Bool.or_eq_false_iff, beq_eq_false_iff_ne, ne_eq]
  omega

theorem maskPin_length (pin : String) : (maskPin pin).length = pin.length := by
  show (pin.data.map _).length = pin.data.length
  exact List.length_map _ _

theorem maskPin_digits (pin : String) (h : ∀ c ∈ pin.data, c.isDigit = true) :
    maskPin pin = ⟨List.replicate pin.length '●'⟩ := by
  have key : ∀ l : List Char, (∀ c ∈ l, c.isDigit = true) →
      l.map (fun c => if isLineTerminator c then c else '●') = List.replicate l.length '●' := by
    intro l
    induction l with
    | nil => intro _; rfl
    | cons a t ih =>
      intro hl
      have ha := isDigit_not_lineTerminator a (hl a (List.mem_cons_self a t))
      have ht := ih (fun c hc => hl c (List.mem_cons_of_mem a hc))
      simp [ha, ht, List.replicate_succ]
  simp only [maskPin, String.length]
  rw [key pin.data h]

theorem dropWhile_both_ends_nil (p : Char → Bool) (l : List Char) :
    ((l.dropWhile p).reverse.dropWhile p).reverse = [] ↔ l.all p = true := by
  constructor
  · intro h
    have h1 : (l.dropWhile p).reverse.dropWhile p = [] := by
      simpa using h
    have h2 : ∀ c ∈ l.dropWhile p, p c = true := by
      have := List.dropWhile_eq_nil_iff.1 h1
      intro c hc
      exact this c (List.mem_reverse.2 hc)
    have h3 : l.dropWhile p = [] := by
      cases hd : l.dropWhile p with
      | nil => rfl
      | cons a t =>
        have hne : l.dropWhile p ≠ [] := by simp [hd]
        have hnot := List.head_dropWhile_not p l hne
        have ha : p ((l.dropWhile p).head hne) = true := h2 _ (List.head_mem hne)
        rw [ha] at hnot
        exact absurd hnot (by decide)
    have h4 := List.dropWhile_eq_nil_iff.1 h3
    exact List.all_eq_true.2 h4
  · intro h
    have h4 : ∀ c ∈ l, p c = true := List.all_eq_true.1 h
    have h3 : l.dropWhile p = [] := List.dropWhile_eq_nil_iff.2 h4
    simp [h3]

theorem jsTrim_eq_empty_iff (s : String) :
    jsTrim s = "" ↔ s.data.all isJsWhiteSpace = true := by
  rw [← dropWhile_both_ends_nil isJsWhiteSpace s.data]
  unfold jsTrim
  constructor
  · intro h
    have := congrArg String.data h
    simpa using this
  · intro h
    rw [h]

theorem confirmResetPin_guard_iff (newPin : String) :
    (newPin == "" || jsTrim newPin == "") = true ↔ newPin.data.all isJsWhiteSpace = true := by
  rw [← jsTrim_eq_empty_iff]
  constructor
  · intro h
    simp only [Bool.or_eq_true, beq_iff_eq] at h
    rcases h with h | h
    · rw [h]; rfl
    · exact h
  · intro h
    simp [h]

/-! ## App.js: view selection -/

/-- C1: for every location and token, `App` picks the view by the ordered
rule. At the admin path `#/admin` with no token (`null`, or the empty string,
which the test `!token` treats alike) it is the login view; with a token it is
the admin dashboard at every location; with no token at any other location it
is the kiosk view. A location other than `#/admin` therefore selects the view
of `#/` (and of `/`) for every token value. -/
theorem App_view_ordered_rule (path : String) (token : Option String) :
    (path = "#/admin" → (token = none ∨ token = some "") →
      App.view path token = View.adminLogin) ∧
    (∀ t : String, t ≠ "" → App.view path (some t) = View.adminDashboard) ∧
    (path ≠ "#/admin" → (token = none ∨ token = some "") →
      App.view path token = View.kiosk) ∧
    (path ≠ "#/admin" →
      App.view path token = App.view "#/" token ∧
      App.view path token = App.view "/" token) := by
  refine ⟨?_, ?_, ?_, ?_⟩
  · intro hp ht
    have := (truthy_eq_false_iff token).2 ht
    simp [App.view, hp, this]
  · intro t ht
    have : truthy (some t) = true := by simp [truthy, ht]
    simp [App.view, this]
  · intro hp ht
    have := (truthy_eq_false_iff token).2 ht
    simp [App.view, hp, this]
  · intro hp
    have h1 : ("#/" == "#/admin") = false := by decide
    have h2 : ("/" == "#/admin") = false := by decide
    simp [App.view, hp, h1, h2]

/-- C1 (witness): the rule at `#/admin` without a token, at `#/dashboard` with
one, and at an unknown location without one. -/
theorem App_view_ordered_rule_witness :
    App.view "#/admin" none = View.adminLogin ∧
    App.view "#/admin" (some "jwt") = View.adminDashboard ∧
    App.view "#/nowhere" none = View.kiosk ∧
    App.view "#/nowhere" (some "jwt") = App.view "#/" (some "jwt") :=
  ⟨(App_view_ordered_rule "#/admin" none).1 rfl (Or.inl rfl),
   (App_view_ordered_rule "#/admin" none).2.1 "jwt" (by decide),
   (App_view_ordered_rule "#/nowhere" none).2.2.1 (by decide) (Or.inl rfl),
   ((App_view_ordered_rule "#/nowhere" (some "jwt")).2.2.2 (by decide)).1⟩

/-! ## apiFetch -/

/-- C2 (evaluation at the failing input): a 400 response whose JSON body
carries the error text "Email already exists" makes `apiFetch` fail with the
fallback message, not with that text: the error thrown inside the `try` block
is caught by the `catch` of the same block. -/
theorem apiFetch_drops_server_error :
    apiFetch ⟨false, 400, .ok ⟨some "Email already exists", none⟩, some "application/json"⟩
      = .error "Request failed with status 400" := rfl

/-! ## Kiosk pin buffer -/

/-- C3: in every kiosk state reached from the initial state by a finite
sequence of digit, delete, clear, submit and submit-resolved events, the pin
has at most 6 characters, the masked display has exactly as many characters as
the pin, and it consists of the mask character only. -/
theorem kiosk_pin_bounded_and_masked (events : List KioskEvent) :
    (Kiosk.run events).pin.length ≤ 6 ∧
    (maskPin (Kiosk.run events).pin).length = (Kiosk.run events).pin.length ∧
    maskPin (Kiosk.run events).pin
      = ⟨List.replicate (Kiosk.run events).pin.length '●'⟩ := by
  have h := PinOk_foldl events Kiosk.init PinOk_init
  exact ⟨h.1, maskPin_length _, maskPin_digits _ h.2⟩

/-- C4: with an empty pin or a submission in flight, `handleSubmit` hands no
request to `fetch` and returns the state as it is; with a non-empty pin and no
submission in flight it hands over exactly one request, the POST to the kiosk
login path whose body carries that pin, sets `isLoading`, and keeps the pin. -/
theorem handleSubmit_guard (s : Kiosk) :
    ((s.pin = "" ∨ s.isLoading = true) → handleSubmit s = (s, [])) ∧
    ((s.pin ≠ "" ∧ s.isLoading = false) →
      (handleSubmit s).2 = [kioskLoginRequest s.pin] ∧
      (kioskLoginRequest s.pin).method = "POST" ∧
      (kioskLoginRequest s.pin).url = "/api/auth/kiosk/login" ∧
      (kioskLoginRequest s.pin).body = some [("pin", s.pin)] ∧
      (handleSubmit s).1.isLoading = true ∧
      (handleSubmit s).1.pin = s.pin ∧
      (handleSubmit s).1.message = processingMessage) := by
  constructor
  · intro h
    rcases h with h | h <;> simp [handleSubmit, h]
  · rintro ⟨hp, hl⟩
    simp [handleSubmit, hp, hl, kioskLoginRequest, API_BASE_URL]

/-- C4 (witness): the empty kiosk, and the kiosk holding the pin 1234. -/
theorem handleSubmit_guard_witness :
    handleSubmit Kiosk.init = (Kiosk.init, []) ∧
    (handleSubmit ⟨"1234", defaultMessage, false, true⟩).2 = [kioskLoginRequest "1234"] ∧
    (handleSubmit ⟨"1234", defaultMessage, false, true⟩).1.isLoading = true :=
  ⟨(handleSubmit_guard Kiosk.init).1 (Or.inl rfl),
   ((handleSubmit_guard ⟨"1234", defaultMessage, false, true⟩).2 ⟨by decide, rfl⟩).1,
   ((handleSubmit_guard ⟨"1234", defaultMessage, false, true⟩).2
      ⟨by decide, rfl⟩).2.2.2.2.1⟩

/-- C5: whatever the outcome of the kiosk login call, once `handleSubmit` has
resolved the pin is empty and `isLoading` is false. The message is of type
success, with the `message` of the body as text, on a success response whose
body was read; it is of type error in every other case: on a non-success
response with the `error` text of the body, or "Clock action failed." when the
body has none (or an empty one), and on a transport or body-read failure with
the message of the exception. -/
theorem handleSubmit_settles (o : Outcome) (s : Kiosk) :
    (handleSubmitSettled o s).pin = "" ∧
    (handleSubmitSettled o s).isLoading = false ∧
    (∀ r data, o = .response r → r.ok = true → r.json = .ok data →
      (handleSubmitSettled o s).message = ⟨data.message, MsgType.success⟩) ∧
    (∀ r data, o = .response r → r.ok = false → r.json = .ok data →
      (handleSubmitSettled o s).message
          = ⟨some (jsOr data.error "Clock action failed."), MsgType.error⟩ ∧
      (∀ e, data.error = some e → e ≠ "" → jsOr data.error "Clock action failed." = e) ∧
      (data.error = none → jsOr data.error "Clock action failed." = "Clock action failed.")) ∧
    (∀ r m, o = .response r → r.json = .error m →
      (handleSubmitSettled o s).message = ⟨some m, MsgType.error⟩) ∧
    (∀ m, o = .rejected m →
      (handleSubmitSettled o s).message = ⟨some m, MsgType.error⟩) ∧
    ((handleSubmitSettled o s).message.type = MsgType.success ∨
      (handleSubmitSettled o s).message.type = MsgType.error) ∧
    ((handleSubmitSettled o s).message.type = MsgType.success ↔
      ∃ r data, o = .response r ∧ r.ok = true ∧ r.json = .ok data) := by
  refine ⟨rfl, rfl, ?_, ?_, ?_, ?_, ?_, ?_⟩
  · intro r data ho hok hj
    simp [handleSubmitSettled, handleSubmitTry, ho, hok, hj]
  · intro r data ho hok hj
    refine ⟨?_, ?_, ?_⟩
    · simp [handleSubmitSettled, handleSubmitTry, ho, hok, hj]
    · intro e he hne
      rw [he]
      exact jsOr_of_truthy e _ hne
    · intro he
      rw [he]
      rfl
  · intro r m ho hj
    simp [handleSubmitSettled, handleSubmitTry, ho, hj]
  · intro m ho
    simp [handleSubmitSettled, handleSubmitTry, ho]
  · cases o with
    | rejected m => right; simp [handleSubmitSettled, handleSubmitTry]
    | response r =>
      cases hj : r.json with
      | error m => right; simp [handleSubmitSettled, handleSubmitTry, hj]
      | ok data =>
        cases hok : r.ok with
        | false => right; simp [handleSubmitSettled, handleSubmitTry, hj, hok]
        | true => left; simp [handleSubmitSettled, handleSubmitTry, hj, hok]
  · cases o with
    | rejected m => simp [handleSubmitSettled, handleSubmitTry]
    | response r =>
      cases hj : r.json with
      | error m => simp [handleSubmitSettled, handleSubmitTry, hj]
      | ok data =>
        cases hok : r.ok with
        | false => simp [handleSubmitSettled, handleSubmitTry, hj, hok]
        | true => simp [handleSubmitSettled, handleSubmitTry, hj, hok]

/-- C5 (witness): a 401 response carrying the error text "Invalid PIN",
settling on a kiosk that holds the pin 1234 in flight. -/
theorem handleSubmit_settles_witness :
    (handleSubmitSettled (.response ⟨false, 401, .ok ⟨some "Invalid PIN", none⟩, none⟩)
        ⟨"1234", processingMessage, true, true⟩).pin = "" ∧
    (handleSubmitSettled (.response ⟨false, 401, .ok ⟨some "Invalid PIN", none⟩, none⟩)
        ⟨"1234", processingMessage, true, true⟩).message
      = ⟨some (jsOr (some "Invalid PIN") "Clock action failed."), MsgType.error⟩ ∧
    jsOr (some "Invalid PIN") "Clock action failed." = "Invalid PIN" :=
  ⟨(handleSubmit_settles _ _).1,
   ((handleSubmit_settles (.response ⟨false, 401, .ok ⟨some "Invalid PIN", none⟩, none⟩)
      ⟨"1234", processingMessage, true, true⟩).2.2.2.1 _ _ rfl rfl rfl).1,
   ((handleSubmit_settles (.response ⟨false, 401, .ok ⟨some "Invalid PIN", none⟩, none⟩)
      ⟨"1234", processingMessage, true, true⟩).2.2.2.1 _ _ rfl rfl rfl).2.1
      "Invalid PIN" rfl (by decide)⟩

/-! ## Kiosk message timers -/

/-- C6 (evaluation at the failing input): the cleanup of the message effect
clears the 4000 ms timeout only. A first submission is answered at time 0, its
4000 ms timeout fires and starts the 300 ms one; 100 ms later a new submission
sets "Processing..." (the third message), and the 300 ms timeout of the second
message is still pending. At 4300 ms it fires and puts the default text in
place of "Processing..." while the call is in flight. When instead the second
call is answered within the window, two timeouts are pending at once; and
unmounting in the window leaves the 300 ms timeout pending. -/
theorem kiosk_reset_timer_survives_message_change :
    (KioskRun.run
        [.input (.digit 1), .input .submit,
         .input (.submitResolved (.response ⟨true, 200, .ok ⟨none, some "Clocked in"⟩, none⟩)),
         .elapse 4000, .fire 0, .elapse 100,
         .input (.digit 2), .input .submit, .elapse 200]).map
      (fun s => (s.ui.message, s.ui.isLoading, s.gen, s.now, s.timers))
      = some (processingMessage, true, 3, 4300, [⟨1, 4300, TimerAction.reset, 2⟩]) ∧
    (KioskRun.run
        [.input (.digit 1), .input .submit,
         .input (.submitResolved (.response ⟨true, 200, .ok ⟨none, some "Clocked in"⟩, none⟩)),
         .elapse 4000, .fire 0, .elapse 100,
         .input (.digit 2), .input .submit, .elapse 200, .fire 1]).map
      (fun s => (s.ui.message, s.ui.isLoading, s.gen, s.now, s.timers))
      = some (defaultMessage, true, 4, 4300, []) ∧
    (KioskRun.run
        [.input (.digit 1), .input .submit,
         .input (.submitResolved (.response ⟨true, 200, .ok ⟨none, some "Clocked in"⟩, none⟩)),
         .elapse 4000, .fire 0, .elapse 100,
         .input (.digit 2), .input .submit,
         .input (.submitResolved (.response ⟨true, 200, .ok ⟨none, some "Clocked out"⟩, none⟩))]).map
      (fun s => (s.ui.message, s.gen, s.timers))
      = some (⟨some "Clocked out", MsgType.success⟩, 4,
          [⟨1, 4300, TimerAction.reset, 2⟩, ⟨2, 8100, TimerAction.fade, 4⟩]) ∧
    (KioskRun.run
        [.input (.digit 1), .input .submit,
         .input (.submitResolved (.response ⟨true, 200, .ok ⟨none, some "Clocked in"⟩, none⟩)),
         .elapse 4000, .fire 0, .unmount]).map
      (fun s => (s.mounted, s.timers))
      = some (false, [⟨1, 4300, TimerAction.reset, 2⟩]) := by
  refine ⟨?_, ?_, ?_, ?_⟩ <;> decide

/-! ## User management dialogs -/

/-- C7 (counterexample): the prompt opened for user 7 and confirmed with the
non-empty string of one blank closes the dialog and issues no request. -/
theorem confirmResetPin_blank_no_call :
    (" " : String) ≠ "" ∧
    UserMgmt.step "tok" (handleResetPin 7 "ROLE_EMPLOYEE" ⟨[], ModalState.closed⟩).1
        (.confirmReset " ")
      = (⟨[], ModalState.closed⟩, []) := by
  constructor <;> decide

/-- C7 (amended): for the reset prompt opened for user `u`, confirming with a
string that is empty or consists of white space only closes the dialog and
issues nothing; confirming with a string that has a character other than white
space issues exactly one request, the POST to `/api/admin/users/u/reset-pin`
whose body carries `newPin` as typed, and leaves the dialog open until the call
settles. -/
theorem confirmResetPin_amended (token : String) (u : Nat) (role newPin : String)
    (s0 : UserMgmt) :
    (newPin.data.all isJsWhiteSpace = true →
      UserMgmt.step token (handleResetPin u role s0).1 (.confirmReset newPin)
        = ({ s0 with modalState := ModalState.closed }, [])) ∧
    (newPin.data.all isJsWhiteSpace = false →
      UserMgmt.step token (handleResetPin u role s0).1 (.confirmReset newPin)
        = ((handleResetPin u role s0).1,
           [Effect.request (resetPinRequest token u newPin)])) ∧
    (resetPinRequest token u newPin).method = "POST" ∧
    (resetPinRequest token u newPin).url
      = "/api/admin/users/" ++ toString u ++ "/reset-pin" ∧
    (resetPinRequest token u newPin).body = some [("newPin", newPin)] := by
  refine ⟨?_, ?_, rfl, ?_, rfl⟩
  · intro h
    have hg := (confirmResetPin_guard_iff newPin).2 h
    simp only [UserMgmt.step, handleResetPin, confirmResetPin]
    simp [hg]
  · intro h
    have hg : (newPin == "" || jsTrim newPin == "") = false := by
      cases hb : (newPin == "" || jsTrim newPin == "") with
      | false => rfl
      | true =>
        rw [(confirmResetPin_guard_iff newPin).1 hb] at h
        exact absurd h (by decide)
    simp only [UserMgmt.step, handleResetPin, confirmResetPin]
    simp [hg]
  · simp [resetPinRequest, API_BASE_URL]

/-- C7 (witness): the prompt opened for user 7, confirmed with the empty
string and with the pin 4321. -/
theorem confirmResetPin_amended_witness :
    UserMgmt.step "tok" (handleResetPin 7 "ROLE_EMPLOYEE" ⟨[], ModalState.closed⟩).1
        (.confirmReset "")
      = (⟨[], ModalState.closed⟩, []) ∧
    UserMgmt.step "tok" (handleResetPin 7 "ROLE_EMPLOYEE" ⟨[], ModalState.closed⟩).1
        (.confirmReset "4321")
      = ((handleResetPin 7 "ROLE_EMPLOYEE" ⟨[], ModalState.closed⟩).1,
         [Effect.request (resetPinRequest "tok" 7 "4321")]) :=
  ⟨(confirmResetPin_amended "tok" 7 "ROLE_EMPLOYEE" "" ⟨[], ModalState.closed⟩).1 rfl,
   (confirmResetPin_amended "tok" 7 "ROLE_EMPLOYEE" "4321" ⟨[], ModalState.closed⟩).2.1
     (by decide)⟩

/-- C8 (counterexample): a credential-reset call answered with a 200 response
succeeds, and `confirmResetPin` then shows the success alert only: no reload of
the user list is issued. -/
theorem confirmResetPin_success_no_reload :
    (∃ v, apiCall (.response ⟨true, 200, .ok ⟨none, none⟩, none⟩) = .ok v) ∧
    (confirmResetPinSettled (.response ⟨true, 200, .ok ⟨none, none⟩, none⟩)
        ⟨[], ⟨some ModalType.resetPin, some ⟨7, some "ROLE_EMPLOYEE"⟩⟩⟩).2
      = [Effect.alert "Credentials have been reset successfully."] ∧
    Effect.loadUsers ∉
      (confirmResetPinSettled (.response ⟨true, 200, .ok ⟨none, none⟩, none⟩)
        ⟨[], ⟨some ModalType.resetPin, some ⟨7, some "ROLE_EMPLOYEE"⟩⟩⟩).2 := by
  refine ⟨⟨_, rfl⟩, rfl, ?_⟩
  decide

/-- C8 (amended): when a confirmed delete call succeeds, `loadUsers` and
`refreshData` are issued, and nothing else; when it fails, neither is issued,
only the alert with the error message. A confirmed credential-reset call issues
neither `loadUsers` nor `refreshData`, whether it succeeds (the success alert)
or fails (the alert with the error message). Both close the dialog. -/
theorem confirm_settled_effects (o : Outcome) (s : UserMgmt) :
    (∀ v, apiCall o = .ok v →
      (confirmDeleteUserSettled o s).2 = [Effect.loadUsers, Effect.refreshData] ∧
      (confirmResetPinSettled o s).2
        = [Effect.alert "Credentials have been reset successfully."]) ∧
    (∀ m, apiCall o = .error m →
      (confirmDeleteUserSettled o s).2 = [Effect.alert m] ∧
      (confirmResetPinSettled o s).2 = [Effect.alert m]) ∧
    Effect.loadUsers ∉ (confirmResetPinSettled o s).2 ∧
    Effect.refreshData ∉ (confirmResetPinSettled o s).2 ∧
    (confirmDeleteUserSettled o s).1 = { s with modalState := ModalState.closed } ∧
    (confirmResetPinSettled o s).1 = { s with modalState := ModalState.closed } := by
  refine ⟨?_, ?_, ?_, ?_, rfl, rfl⟩
  · intro v hv
    simp [confirmDeleteUserSettled, confirmResetPinSettled, hv]
  · intro m hm
    simp [confirmDeleteUserSettled, confirmResetPinSettled, hm]
  · cases h : apiCall o <;> simp [confirmResetPinSettled, h]
  · cases h : apiCall o <;> simp [confirmResetPinSettled, h]

/-- C8 (witness): the delete call of an open dialog answered with a 204
response, and with a 404 response. -/
theorem confirm_settled_effects_witness :
    (confirmDeleteUserSettled (.response ⟨true, 204, .error "Unexpected end of JSON input", none⟩)
        ⟨[], ⟨some ModalType.delete, some ⟨7, none⟩⟩⟩).2
      = [Effect.loadUsers, Effect.refreshData] ∧
    (confirmDeleteUserSettled (.response ⟨false, 404, .ok ⟨some "User not found", none⟩, none⟩)
        ⟨[], ⟨some ModalType.delete, some ⟨7, none⟩⟩⟩).2
      = [Effect.alert "Request failed with status 404"] :=
  ⟨((confirm_settled_effects
      (.response ⟨true, 204, .error "Unexpected end of JSON input", none⟩)
      ⟨[], ⟨some ModalType.delete, some ⟨7, none⟩⟩⟩).1 _ rfl).1,
   ((confirm_settled_effects
      (.response ⟨false, 404, .ok ⟨some "User not found", none⟩, none⟩)
      ⟨[], ⟨some ModalType.delete, some ⟨7, none⟩⟩⟩).2.1 _ rfl).1⟩

/-- C9: pressing Delete or Reset Pin for a user issues nothing and opens the
dialog of that kind with the user's id as context, leaving the list as it is;
cancelling an open dialog closes it, issues nothing and leaves the list as it
is; and whenever an event of the view issues a DELETE request, the event is
the confirmation of an open delete dialog and the request is the delete call
for the id in that dialog's context. -/
theorem delete_only_after_confirmation (token : String) (s : UserMgmt) :
    (∀ u, UserMgmt.step token s (.pressDelete u)
        = ({ s with modalState := ⟨some ModalType.delete, some ⟨u, none⟩⟩ }, [])) ∧
    (∀ u role, UserMgmt.step token s (.pressResetPin u role)
        = ({ s with modalState := ⟨some ModalType.resetPin, some ⟨u, some role⟩⟩ }, [])) ∧
    (s.modalState.type.isSome = true →
      UserMgmt.step token s .cancel = ({ s with modalState := ModalState.closed }, [])) ∧
    ((UserMgmt.step token s .cancel).2 = [] ∧
      (UserMgmt.step token s .cancel).1.users = s.users) ∧
    (∀ e r, Effect.request r ∈ (UserMgmt.step token s e).2 → r.method = "DELETE" →
      e = .confirmDelete ∧ s.modalState.type = some ModalType.delete ∧
      ∃ ctx, s.modalState.context = some ctx ∧ r = deleteUserRequest token ctx.userId ∧
        r.url = "/api/admin/users/" ++ toString ctx.userId) := by
  refine ⟨fun _ => rfl, fun _ _ => rfl, ?_, ?_, ?_⟩
  · intro h
    simp [UserMgmt.step, h, cancelModal]
  · cases h : s.modalState.type.isSome <;> simp [UserMgmt.step, h, cancelModal]
  · intro e r hr hm
    cases e with
    | pressResetPin u role => simp [UserMgmt.step, handleResetPin] at hr
    | pressDelete u => simp [UserMgmt.step, handleDeleteUser] at hr
    | cancel =>
      cases h : s.modalState.type.isSome <;> simp [UserMgmt.step, h, cancelModal] at hr
    | confirmDelete =>
      simp only [UserMgmt.step] at hr
      split at hr
      · rename_i ht
        refine ⟨rfl, by simpa using ht, ?_⟩
        simp only [confirmDeleteUser] at hr
        cases hc : s.modalState.context with
        | none => simp [hc] at hr
        | some ctx =>
          simp [hc] at hr
          exact ⟨ctx, rfl, hr, by rw [hr]; simp [deleteUserRequest, API_BASE_URL]⟩
      · simp at hr
    | confirmReset newPin =>
      simp only [UserMgmt.step] at hr
      split at hr
      · simp only [confirmResetPin] at hr
        split at hr
        · simp at hr
        · cases hc : s.modalState.context with
          | none => simp [hc] at hr
          | some ctx =>
            simp [hc] at hr
            rw [hr] at hm
            simp [resetPinRequest] at hm
      · simp at hr
    | deleteSettled o =>
      cases h : apiCall o <;> simp [UserMgmt.step, confirmDeleteUserSettled, h] at hr
    | resetSettled o =>
      cases h : apiCall o <;> simp [UserMgmt.step, confirmResetPinSettled, h] at hr

/-- C9 (witness): cancelling the delete dialog opened for user 7, and the
request issued by confirming it. -/
theorem delete_only_after_confirmation_witness :
    UserMgmt.step "tok" ⟨[⟨7, "a@b.c", "ROLE_EMPLOYEE"⟩], ⟨some ModalType.delete, some ⟨7, none⟩⟩⟩
        .cancel
      = (⟨[⟨7, "a@b.c", "ROLE_EMPLOYEE"⟩], ModalState.closed⟩, []) ∧
    (∃ ctx, (some (⟨7, none⟩ : ModalContext)) = some ctx ∧
      deleteUserRequest "tok" 7 = deleteUserRequest "tok" ctx.userId ∧
      (deleteUserRequest "tok" 7).url = "/api/admin/users/" ++ toString ctx.userId) :=
  ⟨(delete_only_after_confirmation "tok"
      ⟨[⟨7, "a@b.c", "ROLE_EMPLOYEE"⟩], ⟨some ModalType.delete, some ⟨7, none⟩⟩⟩).2.2.1 rfl,
   ((delete_only_after_confirmation "tok"
      ⟨[⟨7, "a@b.c", "ROLE_EMPLOYEE"⟩], ⟨some ModalType.delete, some ⟨7, none⟩⟩⟩).2.2.2.2
      .confirmDelete (deleteUserRequest "tok" 7) (by decide) rfl).2.2⟩

/-! ## Audit log pagination -/

/-- C10 (counterexample): on the first page of an empty log (`totalPages` 0,
the state the view mounts with) the Next button is disabled although the page
is not `totalPages - 1`. -/
theorem nextDisabled_empty_log :
    nextDisabled 0 0 = true ∧ (0 : Int) ≠ 0 - 1 := by
  constructor <;> decide

/-- C10 (amended): for every page `p` and every `totalPages`, Previous is
disabled if and only if `p = 0`, and Next is disabled if and only if
`p ≥ totalPages - 1`; for a page within the log, `p ≤ totalPages - 1`, that is
if and only if `p = totalPages - 1`. -/
theorem pagination_buttons (p totalPages : Int) :
    (previousDisabled p = true ↔ p = 0) ∧
    (nextDisabled p totalPages = true ↔ p ≥ totalPages - 1) ∧
    (p ≤ totalPages - 1 → (nextDisabled p totalPages = true ↔ p = totalPages - 1)) := by
  refine ⟨?_, ?_, ?_⟩
  · simp [previousDisabled]
  · simp [nextDisabled]
  · intro h
    simp only [nextDisabled, decide_eq_true_eq]
    omega

/-- C10 (witness): page 2 of a log of 3 pages is within the log and is its
last page. -/
theorem pagination_buttons_witness :
    (nextDisabled 2 3 = true ↔ (2 : Int) = 3 - 1) :=
  (pagination_buttons 2 3).2.2 (by decide)

/-! ## Session token -/

/-- C11 (counterexample): `handleLoginSuccess` called with the empty string
leaves a falsy token: at `#/dashboard`, where it navigates, the view is the
kiosk, and at `#/admin` it is the login view; the same holds for a token that
is `undefined`. -/
theorem handleLoginSuccess_empty_token :
    handleLoginSuccess (some "") ⟨"#/admin", none, ⟨none, false⟩⟩
      = .ok ⟨"#/dashboard", some "", ⟨some "", false⟩⟩ ∧
    App.view "#/dashboard" (some "") = View.kiosk ∧
    App.view "#/admin" (some "") = View.adminLogin ∧
    handleLoginSuccess none ⟨"#/admin", none, ⟨none, false⟩⟩
      = .ok ⟨"#/dashboard", none, ⟨some "undefined", false⟩⟩ ∧
    App.view "#/dashboard" none = View.kiosk := by
  refine ⟨rfl, ?_, ?_, rfl, ?_⟩ <;> decide

/-- C11 (amended): for every non-empty token string passed to
`handleLoginSuccess`, and whether or not the write to the storage throws, the
callback returns normally, the token of the session is that string, the
location is `#/dashboard`, and the view selected is the admin dashboard at
every location. The storage holds the token when the write went through and
is as before when it threw. -/
theorem handleLoginSuccess_authenticates (t : String) (s : AppState) (ht : t ≠ "") :
    ∃ s1, handleLoginSuccess (some t) s = .ok s1 ∧
      s1.token = some t ∧ s1.path = "#/dashboard" ∧
      (∀ path, App.view path s1.token = View.adminDashboard) ∧
      (s.storage.throws = false → s1.storage.authToken = some t) ∧
      (s.storage.throws = true → s1.storage = s.storage) := by
  have hv : ∀ path, App.view path (some t) = View.adminDashboard := by
    intro path
    have : truthy (some t) = true := by simp [truthy, ht]
    simp [App.view, this]
  cases h : s.storage.throws with
  | false =>
    refine ⟨navigate "/dashboard"
      { s with storage := { s.storage with authToken := some t }, token := some t }, ?_, rfl, rfl,
      hv, fun _ => rfl, (fun hc => by cases hc)⟩
    simp [handleLoginSuccess, tryCatch, Storage.setItem, h, bind, Except.bind, pure, Except.pure]
  | true =>
    refine ⟨navigate "/dashboard" { s with token := some t }, ?_, rfl, rfl,
      hv, (fun hc => by cases hc), fun _ => rfl⟩
    simp [handleLoginSuccess, tryCatch, Storage.setItem, h, bind, Except.bind, pure, Except.pure]

/-- C11 (witness): the token "jwt" on a storage that throws. -/
theorem handleLoginSuccess_authenticates_witness :
    ∃ s1, handleLoginSuccess (some "jwt") ⟨"#/admin", none, ⟨none, true⟩⟩ = .ok s1 ∧
      s1.token = some "jwt" ∧ s1.path = "#/dashboard" ∧
      App.view "#/admin" s1.token = View.adminDashboard ∧
      App.view "#/" s1.token = View.adminDashboard ∧
      s1.storage = ⟨none, true⟩ := by
  obtain ⟨s1, h1, h2, h3, h4, _, h6⟩ :=
    handleLoginSuccess_authenticates "jwt" ⟨"#/admin", none, ⟨none, true⟩⟩ (by decide)
  exact ⟨s1, h1, h2, h3, h4 "#/admin", h4 "#/", h6 rfl⟩

/-- C12: from every state, at every location and with any token,
`handleLogout` returns normally and leaves the token absent and the location
`#/` (the location `/`), where the view selected is the kiosk; so it is whether
the removal of the stored token goes through (the storage is then empty) or
throws (the storage is as before). -/
theorem handleLogout_returns_to_kiosk (s : AppState) :
    ∃ s1, handleLogout s = .ok s1 ∧
      s1.token = none ∧ s1.path = "#/" ∧ s1.view = View.kiosk ∧
      (s.storage.throws = false → s1.storage.authToken = none) ∧
      (s.storage.throws = true → s1.storage = s.storage) := by
  cases h : s.storage.throws with
  | false =>
    refine ⟨navigate "/" { s with storage := { s.storage with authToken := none }, token := none },
      ?_, rfl, rfl, rfl, fun _ => rfl, (fun hc => by cases hc)⟩
    simp [handleLogout, tryCatch, Storage.removeItem, h, bind, Except.bind, pure, Except.pure]
  | true =>
    refine ⟨navigate "/" { s with token := none }, ?_, rfl, rfl, rfl,
      (fun hc => by cases hc), fun _ => rfl⟩
    simp [handleLogout, tryCatch, Storage.removeItem, h, bind, Except.bind, pure, Except.pure]

/-- C13: the initialiser of the token returns normally in every case: with
the value stored under `authToken` (absent when nothing is stored) when the
storage can be read, and with the absent token when reading it throws. -/
theorem initialToken_restores_or_absent (st : Storage) :
    (st.throws = false → initialToken st = .ok st.authToken) ∧
    (st.throws = true → initialToken st = .ok none) ∧
    (∃ v, initialToken st = .ok v) := by
  cases h : st.throws <;> simp [initialToken, tryCatch, Storage.getItem, h]

/-- C13 (witness): a storage holding "jwt", one holding nothing, and one that
throws. -/
theorem initialToken_restores_or_absent_witness :
    initialToken ⟨some "jwt", false⟩ = .ok (some "jwt") ∧
    initialToken ⟨none, false⟩ = .ok none ∧
    initialToken ⟨some "jwt", true⟩ = .ok none :=
  ⟨(initialToken_restores_or_absent ⟨some "jwt", false⟩).1 rfl,
   (initialToken_restores_or_absent ⟨none, false⟩).1 rfl,
   (initialToken_restores_or_absent ⟨some "jwt", true⟩).2.1 rfl⟩

/-! ## Kiosk pin handlers -/

/-- C14: while a submission is in flight, a digit, delete and clear leave the
kiosk state, and so the pin, as it is. With no submission in flight, a digit
appends exactly its one character when the pin has fewer than 6 characters and
leaves the pin as it is otherwise; delete removes exactly the last character
and leaves the empty pin empty; clear gives the empty pin. -/
theorem pin_handlers_frame (s : Kiosk) (d : Fin 10) :
    (s.isLoading = true →
      handleKeyPress (digitValue d) s = s ∧ handleDelete s = s ∧ handleClear s = s) ∧
    (s.isLoading = false →
      (s.pin.length < 6 →
        handleKeyPress (digitValue d) s = { s with pin := s.pin ++ digitValue d }) ∧
      (6 ≤ s.pin.length → handleKeyPress (digitValue d) s = s) ∧
      (digitValue d).length = 1 ∧
      (∀ init c, s.pin.data = init ++ [c] →
        handleDelete s = { s with pin := ⟨init⟩ }) ∧
      (s.pin = "" → handleDelete s = s) ∧
      handleClear s = { s with pin := "" }) := by
  constructor
  · intro h
    simp [handleKeyPress, handleDelete, handleClear, h]
  · intro h
    refine ⟨?_, ?_, (digitValue_data d).1, ?_, ?_, ?_⟩
    · intro hlt
      simp [handleKeyPress, h, hlt]
    · intro hge
      have : ¬ s.pin.length < 6 := by omega
      simp [handleKeyPress, h, this]
    · intro init c hc
      simp [handleDelete, h, hc]
    · intro hp
      cases s with
      | mk pin message isLoading isMessageVisible =>
        simp only at hp h
        subst hp
        simp [handleDelete, h]
    · simp [handleClear, h]

/-- C14 (witness): the kiosk holding "12" in flight, and idle. -/
theorem pin_handlers_frame_witness :
    handleKeyPress (digitValue 3) ⟨"12", processingMessage, true, true⟩
      = ⟨"12", processingMessage, true, true⟩ ∧
    handleKeyPress (digitValue 3) ⟨"12", defaultMessage, false, true⟩
      = { (⟨"12", defaultMessage, false, true⟩ : Kiosk) with pin := "12" ++ digitValue 3 } ∧
    handleDelete ⟨"12", defaultMessage, false, true⟩
      = { (⟨"12", defaultMessage, false, true⟩ : Kiosk) with pin := ⟨['1']⟩ } :=
  ⟨((pin_handlers_frame ⟨"12", processingMessage, true, true⟩ 3).1 rfl).1,
   ((pin_handlers_frame ⟨"12", defaultMessage, false, true⟩ 3).2 rfl).1 (by decide),
   ((pin_handlers_frame ⟨"12", defaultMessage, false, true⟩ 3).2 rfl).2.2.2.1 ['1'] '2' rfl⟩

/-! ## User management: the modal slot -/

/-- C15 (counterexample): with the reset prompt for user 7 open, a press of
Delete for user 9 replaces it by the delete dialog for user 9. -/
theorem open_dialog_replaced :
    UserMgmt.step "tok" ⟨[], ⟨some ModalType.resetPin, some ⟨7, some "ROLE_EMPLOYEE"⟩⟩⟩
        (.pressDelete 9)
      = (⟨[], ⟨some ModalType.delete, some ⟨9, none⟩⟩⟩, []) := by
  decide

/-- C15 (amended): the view renders at most one dialog in every state. The
handlers `handleDeleteUser` and `handleResetPin` carry no guard: in every
state, also with a dialog open, they put the new dialog with its context in
the slot. Apart from such a press, the modal state changes only by closing:
cancelling an open dialog, the settling of a confirmed call, and confirming
the reset prompt with an empty or white-space-only value close it. Confirming
the delete dialog, and confirming the reset prompt with a value that has a
character other than white space, leave the dialog open with its kind and
context (until the call settles), and so does every confirm or cancel whose
dialog is not the open one. -/
theorem modal_single_slot (token : String) (s : UserMgmt) :
    (renderedDialogs s.modalState).length ≤ 1 ∧
    (∀ u, (UserMgmt.step token s (.pressDelete u)).1.modalState
        = ⟨some ModalType.delete, some ⟨u, none⟩⟩) ∧
    (∀ u role, (UserMgmt.step token s (.pressResetPin u role)).1.modalState
        = ⟨some ModalType.resetPin, some ⟨u, some role⟩⟩) ∧
    (∀ e, (UserMgmt.step token s e).1.modalState = s.modalState ∨
      (UserMgmt.step token s e).1.modalState = ModalState.closed ∨
      (∃ u, e = .pressDelete u) ∨ (∃ u role, e = .pressResetPin u role)) ∧
    (s.modalState.type.isSome = true →
      (UserMgmt.step token s .cancel).1.modalState = ModalState.closed) ∧
    (∀ o, (UserMgmt.step token s (.deleteSettled o)).1.modalState = ModalState.closed ∧
      (UserMgmt.step token s (.resetSettled o)).1.modalState = ModalState.closed) ∧
    (s.modalState.type = some ModalType.resetPin →
      (UserMgmt.step token s (.confirmReset "")).1.modalState = ModalState.closed) ∧
    (∀ newPin, s.modalState.type = some ModalType.resetPin →
      newPin.data.all isJsWhiteSpace = true →
      (UserMgmt.step token s (.confirmReset newPin)).1.modalState = ModalState.closed) ∧
    (∀ newPin, newPin.data.all isJsWhiteSpace = false →
      (UserMgmt.step token s (.confirmReset newPin)).1.modalState = s.modalState) ∧
    (∀ newPin, s.modalState.type ≠ some ModalType.resetPin →
      (UserMgmt.step token s (.confirmReset newPin)).1.modalState = s.modalState) ∧
    (UserMgmt.step token s .confirmDelete).1.modalState = s.modalState ∧
    (s.modalState.type.isSome = false →
      (UserMgmt.step token s .cancel).1.modalState = s.modalState) ∧
    (∀ e, (UserMgmt.step token s e).1.modalState ≠ s.modalState →
      (∃ u, e = .pressDelete u) ∨ (∃ u role, e = .pressResetPin u role) ∨
      e = .cancel ∨ (∃ o, e = .deleteSettled o) ∨ (∃ o, e = .resetSettled o) ∨
      (∃ newPin, e = .confirmReset newPin ∧ newPin.data.all isJsWhiteSpace = true)) := by
  have hDel : (UserMgmt.step token s .confirmDelete).1.modalState = s.modalState := by
    simp only [UserMgmt.step, confirmDeleteUser]
    split
    · cases s.modalState.context <;> rfl
    · rfl
  have hKeep : ∀ newPin : String, newPin.data.all isJsWhiteSpace = false →
      (UserMgmt.step token s (.confirmReset newPin)).1.modalState = s.modalState := by
    intro newPin h
    have hg : (newPin == "" || jsTrim newPin == "") = false := by
      cases hb : (newPin == "" || jsTrim newPin == "") with
      | false => rfl
      | true =>
        rw [(confirmResetPin_guard_iff newPin).1 hb] at h
        exact absurd h (by decide)
    simp only [UserMgmt.step, confirmResetPin]
    split
    · simp only [hg]
      cases s.modalState.context <;> rfl
    · rfl
  refine ⟨?_, fun _ => rfl, fun _ _ => rfl, ?_, ?_, fun _ => ⟨rfl, rfl⟩, ?_,
    ?_, hKeep, ?_, hDel, ?_, ?_⟩
  · cases s with
    | mk users m =>
      cases m with
      | mk type context =>
        cases type with
        | none => simp [renderedDialogs]
        | some k => cases k <;> simp [renderedDialogs]
  · intro e
    cases e with
    | pressResetPin u role => exact Or.inr (Or.inr (Or.inr ⟨u, role, rfl⟩))
    | pressDelete u => exact Or.inr (Or.inr (Or.inl ⟨u, rfl⟩))
    | cancel =>
      cases h : s.modalState.type.isSome
      · left; simp [UserMgmt.step, h]
      · right; left; simp [UserMgmt.step, h, cancelModal]
    | confirmDelete =>
      left
      simp only [UserMgmt.step, confirmDeleteUser]
      split
      · cases s.modalState.context <;> rfl
      · rfl
    | confirmReset newPin =>
      simp only [UserMgmt.step, confirmResetPin]
      split
      · split
        · right; left; rfl
        · left
          cases s.modalState.context <;> rfl
      · left; rfl
    | deleteSettled o => right; left; rfl
    | resetSettled o => right; left; rfl
  · intro h
    simp [UserMgmt.step, h, cancelModal]
  · intro h
    simp [UserMgmt.step, h, confirmResetPin]
  · intro newPin h hw
    have hg := (confirmResetPin_guard_iff newPin).2 hw
    simp [UserMgmt.step, h, confirmResetPin, hg]
  · intro newPin h
    have : (s.modalState.type == some ModalType.resetPin) = false := by
      simpa using h
    simp [UserMgmt.step, this]
  · intro h
    simp [UserMgmt.step, h]
  · intro e he
    cases e with
    | pressResetPin u role => exact Or.inr (Or.inl ⟨u, role, rfl⟩)
    | pressDelete u => exact Or.inl ⟨u, rfl⟩
    | cancel => exact Or.inr (Or.inr (Or.inl rfl))
    | confirmDelete => exact absurd hDel he
    | confirmReset newPin =>
      cases hw : newPin.data.all isJsWhiteSpace with
      | true => exact Or.inr (Or.inr (Or.inr (Or.inr (Or.inr ⟨newPin, rfl, hw⟩))))
      | false => exact absurd (hKeep newPin hw) he
    | deleteSettled o => exact Or.inr (Or.inr (Or.inr (Or.inl ⟨o, rfl⟩)))
    | resetSettled o => exact Or.inr (Or.inr (Or.inr (Or.inr (Or.inl ⟨o, rfl⟩))))

/-- C15 (witness): cancelling the open delete dialog for user 7. -/
theorem modal_single_slot_witness :
    (UserMgmt.step "tok" ⟨[], ⟨some ModalType.delete, some ⟨7, none⟩⟩⟩ .cancel).1.modalState
      = ModalState.closed :=
  (modal_single_slot "tok" ⟨[], ⟨some ModalType.delete, some ⟨7, none⟩⟩⟩).2.2.2.2.1 rfl

/-! ## Timesheet weeks -/

theorem setDate_getDate_add (tz t n : Int) :
    setDate tz t (getDate tz t + n) = t + n * 86400000 := by
  simp only [setDate, getDate, UTC, MakeDate, LocalTime, Day, TimeWithinDay]
  generalize DateFromTime (t + tz) = x
  omega

theorem zone_setDate_getDate_add (z : TimeZone) (t n : Int) :
    z.setDate t (z.getDate t + n) = z.utc (z.localTime t + n * 86400000) := by
  simp only [TimeZone.setDate, TimeZone.getDate, MakeDate, Day, TimeWithinDay]
  congr 1
  generalize DateFromTime (z.localTime t) = x
  generalize z.localTime t = tl
  omega

theorem changeWeek_eq (z : TimeZone) (n d : Int) :
    changeWeek z n d = z.utc (z.localTime d + n * 86400000) :=
  zone_setDate_getDate_add z d n

theorem changeWeek_fixed (tz n d : Int) :
    changeWeek (TimeZone.fixed tz) n d = d + n * 86400000 := by
  rw [changeWeek_eq]
  simp only [TimeZone.utc, TimeZone.localTime, TimeZone.fixed]
  omega

/-- C16 (counterexample): in a zone that moves from UTC+03:30 to UTC+04:30 at
2021-03-21T20:30Z, which is midnight of Monday 22 March local time
(Asia/Tehran), the week start Monday 15 March 2021, 00:30 local time, is taken
by `changeWeek(7)` to Monday 22 March, 01:30 local time, since 00:30 does not
exist on that day, and from there by `changeWeek(-7)` to Monday 15 March,
01:30: an hour after the week start it began with. -/
theorem changeWeek_skipped_local_time :
    (TimeZone.transition 1616358600000 12600000 16200000).getDay 1615755600000 = 1 ∧
    toISOString ((TimeZone.transition 1616358600000 12600000 16200000).localTime 1615755600000)
      = "2021-03-15T00:30:00.000Z" ∧
    toISOString ((TimeZone.transition 1616358600000 12600000 16200000).localTime
        (changeWeek (TimeZone.transition 1616358600000 12600000 16200000) 7 1615755600000))
      = "2021-03-22T01:30:00.000Z" ∧
    changeWeek (TimeZone.transition 1616358600000 12600000 16200000) (-7)
        (changeWeek (TimeZone.transition 1616358600000 12600000 16200000) 7 1615755600000)
      = 1615755600000 + 3600000 ∧
    changeWeek (TimeZone.transition 1616358600000 12600000 16200000) (-7)
        (changeWeek (TimeZone.transition 1616358600000 12600000 16200000) 7 1615755600000)
      ≠ 1615755600000 := by
  refine ⟨?_, ?_, ?_, ?_, ?_⟩ <;> decide

/-- C16 (amended): let `d` be a week start that is the time value its own
local reading denotes in the host zone. If the local time of `d` seven days
later exists in the zone (reading it back gives it again), `changeWeek(7)`
moves the local date by exactly seven days forward, keeps the local time of
day and the weekday, and `changeWeek(-7)` after it gives `d` again, the same
time value; likewise with seven days earlier for `changeWeek(-7)` followed by
`changeWeek(7)`. In a zone of constant offset both conditions hold for every
`d`, so there all of this holds for every week start. -/
theorem changeWeek_round_trip (z : TimeZone) (d : Int) :
    (z.utc (z.localTime d) = d →
      z.localTime (z.utc (z.localTime d + 7 * 86400000)) = z.localTime d + 7 * 86400000 →
      changeWeek z (-7) (changeWeek z 7 d) = d ∧
      Day (z.localTime (changeWeek z 7 d)) = Day (z.localTime d) + 7 ∧
      TimeWithinDay (z.localTime (changeWeek z 7 d)) = TimeWithinDay (z.localTime d) ∧
      z.getDay (changeWeek z 7 d) = z.getDay d) ∧
    (z.utc (z.localTime d) = d →
      z.localTime (z.utc (z.localTime d + (-7) * 86400000))
        = z.localTime d + (-7) * 86400000 →
      changeWeek z 7 (changeWeek z (-7) d) = d ∧
      Day (z.localTime (changeWeek z (-7) d)) = Day (z.localTime d) - 7 ∧
      TimeWithinDay (z.localTime (changeWeek z (-7) d)) = TimeWithinDay (z.localTime d) ∧
      z.getDay (changeWeek z (-7) d) = z.getDay d) ∧
    (∀ tz : Int,
      (TimeZone.fixed tz).utc ((TimeZone.fixed tz).localTime d) = d ∧
      (∀ x, (TimeZone.fixed tz).localTime ((TimeZone.fixed tz).utc x) = x) ∧
      changeWeek (TimeZone.fixed tz) (-7) (changeWeek (TimeZone.fixed tz) 7 d) = d ∧
      changeWeek (TimeZone.fixed tz) 7 (changeWeek (TimeZone.fixed tz) (-7) d) = d ∧
      Day ((TimeZone.fixed tz).localTime (changeWeek (TimeZone.fixed tz) 7 d))
        = Day ((TimeZone.fixed tz).localTime d) + 7 ∧
      Day ((TimeZone.fixed tz).localTime (changeWeek (TimeZone.fixed tz) (-7) d))
        = Day ((TimeZone.fixed tz).localTime d) - 7 ∧
      TimeWithinDay ((TimeZone.fixed tz).localTime (changeWeek (TimeZone.fixed tz) 7 d))
        = TimeWithinDay ((TimeZone.fixed tz).localTime d) ∧
      TimeWithinDay ((TimeZone.fixed tz).localTime (changeWeek (TimeZone.fixed tz) (-7) d))
        = TimeWithinDay ((TimeZone.fixed tz).localTime d) ∧
      (TimeZone.fixed tz).getDay (changeWeek (TimeZone.fixed tz) 7 d)
        = (TimeZone.fixed tz).getDay d ∧
      (TimeZone.fixed tz).getDay (changeWeek (TimeZone.fixed tz) (-7) d)
        = (TimeZone.fixed tz).getDay d) := by
  refine ⟨?_, ?_, ?_⟩
  · intro h1 h2
    have e1 : z.localTime (changeWeek z 7 d) = z.localTime d + 7 * 86400000 := by
      rw [changeWeek_eq]; exact h2
    have e2 : changeWeek z (-7) (changeWeek z 7 d) = d := by
      rw [changeWeek_eq z (-7), e1]
      have : z.localTime d + 7 * 86400000 + (-7) * 86400000 = z.localTime d := by omega
      rw [this]; exact h1
    refine ⟨e2, ?_, ?_, ?_⟩
    · rw [e1]; simp only [Day]; omega
    · rw [e1]; simp only [TimeWithinDay]; omega
    · simp only [TimeZone.getDay, e1, WeekDay, Day]; omega
  · intro h1 h2
    have e1 : z.localTime (changeWeek z (-7) d) = z.localTime d + (-7) * 86400000 := by
      rw [changeWeek_eq]; exact h2
    have e2 : changeWeek z 7 (changeWeek z (-7) d) = d := by
      rw [changeWeek_eq z 7, e1]
      have : z.localTime d + (-7) * 86400000 + 7 * 86400000 = z.localTime d := by omega
      rw [this]; exact h1
    refine ⟨e2, ?_, ?_, ?_⟩
    · rw [e1]; simp only [Day]; omega
    · rw [e1]; simp only [TimeWithinDay]; omega
    · simp only [TimeZone.getDay, e1, WeekDay, Day]; omega
  · intro tz
    simp only [changeWeek_fixed]
    simp only [TimeZone.getDay, WeekDay, Day, TimeWithinDay, TimeZone.utc,
      TimeZone.localTime, TimeZone.fixed]
    refine ⟨?_, ?_, ?_, ?_, ?_, ?_, ?_, ?_, ?_, ?_⟩
    · omega
    · intro x; omega
    all_goals omega

/-- C16 (witness): in the zone with the change of 22 March 2021, the week
start Monday 8 March 2021, 00:30 local time, whose local time exists a week
later, on 15 March. -/
theorem changeWeek_round_trip_witness :
    changeWeek (TimeZone.transition 1616358600000 12600000 16200000) (-7)
        (changeWeek (TimeZone.transition 1616358600000 12600000 16200000) 7 1615150800000)
      = 1615150800000 ∧
    (TimeZone.transition 1616358600000 12600000 16200000).getDay
        (changeWeek (TimeZone.transition 1616358600000 12600000 16200000) 7 1615150800000)
      = (TimeZone.transition 1616358600000 12600000 16200000).getDay 1615150800000 :=
  ⟨((changeWeek_round_trip (TimeZone.transition 1616358600000 12600000 16200000)
      1615150800000).1 (by decide) (by decide)).1,
   ((changeWeek_round_trip (TimeZone.transition 1616358600000 12600000 16200000)
      1615150800000).1 (by decide) (by decide)).2.2.2⟩

/-- C17: for every date `d`, in every zone of constant offset, the date
`getMonday(d)` returns is a Monday, its local day is the day of `d` or one of
the six days before it, at the local time of day of `d`: `d` itself when `d` is
a Monday, six days earlier when `d` is a Sunday. The date object passed in
keeps its time value. -/
theorem getMonday_is_monday (tz d : Int) :
    getDay tz (getMonday tz d).1 = 1 ∧
    Day (LocalTime tz (getMonday tz d).1) ≤ Day (LocalTime tz d) ∧
    Day (LocalTime tz d) - Day (LocalTime tz (getMonday tz d).1) < 7 ∧
    TimeWithinDay (LocalTime tz (getMonday tz d).1) = TimeWithinDay (LocalTime tz d) ∧
    (getDay tz d = 1 → (getMonday tz d).1 = d) ∧
    (getDay tz d = 0 → (getMonday tz d).1 = d - 6 * 86400000) ∧
    (getMonday tz d).2 = d := by
  have key : (getMonday tz d).1
      = d + (-(getDay tz d) + (if getDay tz d = 0 then -6 else 1)) * 86400000 := by
    have := setDate_getDate_add tz d (-(getDay tz d) + (if getDay tz d = 0 then -6 else 1))
    simp only [getMonday]
    rw [← this]
    congr 1
    omega
  rw [key]
  simp only [getDay, WeekDay, Day, TimeWithinDay, LocalTime, getMonday]
  refine ⟨?_, ?_, ?_, ?_, ?_, ?_, trivial⟩
  all_goals split <;> omega

/-- C17 (witness): in the zone of offset zero, Monday 8 January 2024, 10:00,
is its own Monday, and Sunday 14 January 2024, 10:00, has the Monday six days
earlier. -/
theorem getMonday_is_monday_witness :
    (getMonday 0 1704708000000).1 = 1704708000000 ∧
    (getMonday 0 1705226400000).1 = 1705226400000 - 6 * 86400000 :=
  ⟨(getMonday_is_monday 0 1704708000000).2.2.2.2.1 (by decide),
   (getMonday_is_monday 0 1705226400000).2.2.2.2.2.1 (by decide)⟩

/-! ## Exports -/

/-- C18 (counterexample): in a zone 5 h 30 min east of UTC, for the week
start Monday 8 January 2024, 10:00 local time, the `startDate` parameter and
the file name carry the date 2024-01-07, not the first day shown; in a zone
5 h west of UTC, for the same local week, the `endDate` parameter and the file
name carry 2024-01-15, not the last day shown, 14 January. -/
theorem handleDownload_utc_dates :
    civilFromDays (Day (LocalTime 19800000 1704688200000)) = ⟨2024, 1, 8⟩ ∧
    handleDownload 19800000 1704688200000
      = { path := "/api/admin/timesheets/export"
          query := [("startDate", "2024-01-07T18:30:00"), ("endDate", "2024-01-14T18:29:59")]
          filename := "timesheet_export_2024-01-07_to_2024-01-14.csv" } ∧
    civilFromDays (Day (LocalTime (-18000000) 1704726000000)) = ⟨2024, 1, 8⟩ ∧
    civilFromDays (Day (LocalTime (-18000000) 1704726000000) + 6) = ⟨2024, 1, 14⟩ ∧
    handleDownload (-18000000) 1704726000000
      = { path := "/api/admin/timesheets/export"
          query := [("startDate", "2024-01-08T05:00:00"), ("endDate", "2024-01-15T04:59:59")]
          filename := "timesheet_export_2024-01-08_to_2024-01-15.csv" } := by
  refine ⟨?_, ?_, ?_, ?_, ?_⟩ <;> decide

/-- C18 (amended): for every week start `w`, in every zone of constant
offset, the request of `handleDownload` carries as `startDate` the instant of
00:00:00 local time of the day of `w` and as `endDate` the instant of
23:59:59.999 local time of the day six days later, each rendered by
`toISOString` (in UTC) and cut after the seconds. The two instants are 7 days
less a millisecond apart, and for an offset of whole seconds the two
parameters are 7 days less a second apart. The date in a parameter is the UTC
date of its instant: for an offset of less than a day, that of `startDate` is
the first day of the week exactly when the offset is zero or negative, that of
`endDate` its last day exactly when the offset is zero or positive. -/
theorem handleDownload_bounds (tz w : Int) :
    Day (LocalTime tz (downloadStart tz w)) = Day (LocalTime tz w) ∧
    TimeWithinDay (LocalTime tz (downloadStart tz w)) = MakeTime 0 0 0 0 ∧
    Day (LocalTime tz (downloadEnd tz w)) = Day (LocalTime tz w) + 6 ∧
    TimeWithinDay (LocalTime tz (downloadEnd tz w)) = MakeTime 23 59 59 999 ∧
    downloadEnd tz w = downloadStart tz w + 7 * 86400000 - 1 ∧
    (tz % 1000 = 0 →
      downloadEnd tz w / 1000 - downloadStart tz w / 1000 = 7 * 86400 - 1) ∧
    (handleDownload tz w).path = "/api/admin/timesheets/export" ∧
    (handleDownload tz w).query
      = [("startDate", slice19 (toISOString (downloadStart tz w))),
         ("endDate", slice19 (toISOString (downloadEnd tz w)))] ∧
    (-86400000 < tz ∧ tz < 86400000 →
      (Day (downloadStart tz w) = Day (LocalTime tz w) ↔ tz ≤ 0) ∧
      (Day (downloadEnd tz w) = Day (LocalTime tz w) + 6 ↔ 0 ≤ tz)) := by
  have hs : downloadStart tz w = (w + tz) / 86400000 * 86400000 - tz := by
    simp only [downloadStart, setHours, UTC, MakeDate, MakeTime, LocalTime, Day]
    omega
  have he : downloadEnd tz w = (w + tz) / 86400000 * 86400000 + 7 * 86400000 - 1 - tz := by
    simp only [downloadEnd, setDate_getDate_add, hs, setHours, UTC, MakeDate, MakeTime,
      LocalTime, Day]
    omega
  refine ⟨?_, ?_, ?_, ?_, ?_, ?_, rfl, rfl, ?_⟩
  · simp only [hs, LocalTime, Day]; omega
  · simp only [hs, LocalTime, TimeWithinDay, MakeTime]; omega
  · simp only [he, LocalTime, Day]; omega
  · simp only [he, LocalTime, TimeWithinDay, MakeTime]; omega
  · rw [hs, he]; omega
  · intro h
    rw [hs, he]; omega
  · intro h
    simp only [hs, he, LocalTime, Day]
    constructor <;> constructor <;> intro _ <;> omega

/-- C18 (witness): in the zone of offset zero, for the week start Monday
8 January 2024, 10:00. -/
theorem handleDownload_bounds_witness :
    downloadEnd 0 1704708000000 / 1000 - downloadStart 0 1704708000000 / 1000
      = 7 * 86400 - 1 ∧
    (Day (downloadStart 0 1704708000000) = Day (LocalTime 0 1704708000000) ↔ (0 : Int) ≤ 0) ∧
    (handleDownload 0 1704708000000).query
      = [("startDate", "2024-01-08T00:00:00"), ("endDate", "2024-01-14T23:59:59")] :=
  ⟨(handleDownload_bounds 0 1704708000000).2.2.2.2.2.1 (by decide),
   ((handleDownload_bounds 0 1704708000000).2.2.2.2.2.2.2.2 ⟨by decide, by decide⟩).1,
   (handleDownload_bounds 0 1704708000000).2.2.2.2.2.2.2.1.trans (by decide)⟩

/-- C19 (evaluation at the failing input): in a zone 5 h west of UTC, for the
selected dates 2024-01-08 and 2024-01-14, `handleExportCustomRange` requests
the range from the start of 7 January to the end of 13 January local time,
the days before the ones selected: a date input value is parsed as midnight
UTC, which in a zone west of UTC is the evening of the day before, and
`setHours` then moves within that day. So it is for every negative offset of
at most a day; for an offset from zero to less than a day the bounds are the
start and end of the selected days. With a date missing the handler alerts and
starts no download. -/
theorem customRange_previous_day :
    parseDateInput "2024-01-08" = some (MakeDate (daysFromCivil ⟨2024, 1, 8⟩) 0) ∧
    (customRange (-18000000) "2024-01-08" "2024-01-14").map
        (fun r => (civilFromDays (Day (LocalTime (-18000000) r.1)),
                   TimeWithinDay (LocalTime (-18000000) r.1),
                   civilFromDays (Day (LocalTime (-18000000) r.2)),
                   TimeWithinDay (LocalTime (-18000000) r.2)))
      = some (⟨2024, 1, 7⟩, 0, ⟨2024, 1, 13⟩, 86399999) ∧
    handleExportCustomRange (-18000000) "audit-logs" "2024-01-08" "2024-01-14"
      = .ok [ExportEffect.download
          { path := "/api/admin/audit-logs/export"
            query := [("startDate", "2024-01-07T05:00:00"), ("endDate", "2024-01-14T04:59:59")]
            filename := "audit-logs_export_2024-01-07_to_2024-01-14.csv" }] ∧
    (∀ tz n : Int, -86400000 ≤ tz → tz < 0 →
      Day (LocalTime tz (setHours tz (MakeDate n 0) 0 0 0 0)) = n - 1 ∧
      Day (LocalTime tz (setHours tz (MakeDate n 0) 23 59 59 999)) = n - 1) ∧
    (∀ tz n : Int, 0 ≤ tz → tz < 86400000 →
      Day (LocalTime tz (setHours tz (MakeDate n 0) 0 0 0 0)) = n ∧
      Day (LocalTime tz (setHours tz (MakeDate n 0) 23 59 59 999)) = n) ∧
    (∀ (tz : Int) (type endDate : String),
      handleExportCustomRange tz type "" endDate
        = .ok [ExportEffect.alert "Please select both a start and end date."]) ∧
    (∀ (tz : Int) (type startDate : String),
      handleExportCustomRange tz type startDate ""
        = .ok [ExportEffect.alert "Please select both a start and end date."]) := by
  refine ⟨by decide, by decide, rfl, ?_, ?_, ?_, ?_⟩
  · intro tz n h1 h2
    simp only [setHours, UTC, MakeDate, MakeTime, LocalTime, Day]
    constructor <;> omega
  · intro tz n h1 h2
    simp only [setHours, UTC, MakeDate, MakeTime, LocalTime, Day]
    constructor <;> omega
  · intro tz type endDate
    simp [handleExportCustomRange]
  · intro tz type startDate
    simp [handleExportCustomRange]

/-! ## Add-user form -/

/-- C20 (evaluation at the failing input): `handleSubmit` of the form does not
test `isLoading`. On the filled form a first submit event starts a create call
and sets `isLoading`, which disables the Save button; a second submit event
that reaches the handler while that call is pending starts a second create
call, so two are in flight. In every state, loading or not, the handler
issues exactly one POST to `/api/admin/users`. -/
theorem addUser_second_submit_second_call :
    (AddUserRun.run "tok" [.edit "a@b.c" "1234" "ROLE_EMPLOYEE", .submit])
      = ⟨⟨"a@b.c", "1234", "ROLE_EMPLOYEE", "", true⟩, 1⟩ ∧
    saveDisabled (AddUserRun.run "tok" [.edit "a@b.c" "1234" "ROLE_EMPLOYEE", .submit]).form
      = true ∧
    (AddUserForm.handleSubmit "tok" ⟨"a@b.c", "1234", "ROLE_EMPLOYEE", "", true⟩).2
      = [FormEffect.request (createUserRequest "tok" ⟨"a@b.c", "1234", "ROLE_EMPLOYEE", "", true⟩)] ∧
    (AddUserRun.run "tok" [.edit "a@b.c" "1234" "ROLE_EMPLOYEE", .submit, .submit])
      = ⟨⟨"a@b.c", "1234", "ROLE_EMPLOYEE", "", true⟩, 2⟩ ∧
    (∀ (token : String) (f : AddUserForm),
      (f.handleSubmit token).2 = [FormEffect.request (createUserRequest token f)] ∧
      (createUserRequest token f).method = "POST" ∧
      (createUserRequest token f).url = "/api/admin/users" ∧
      (f.handleSubmit token).1.isLoading = true) := by
  refine ⟨by decide, by decide, by decide, by decide, ?_⟩
  intro token f
  exact ⟨rfl, rfl, by simp [createUserRequest, API_BASE_URL], rfl⟩

/-! ## Kiosk keyboard input -/

/-- C21 (evaluation at the failing input): the test of `handleKeyDown`
compares strings, not characters. A key string of several characters that
begins with a character from 0 to 8 passes it: the key "12" is routed to
`handleKeyPress` and appended whole, which takes a pin of five characters to
seven, and the key "5x" puts a character that is no digit into the pin. In
general a key is routed to `handleKeyPress` exactly when it is "9" or begins
with a character from 0 to 8; among keys of a single character these are
exactly the digits. -/
theorem handleKeyDown_multichar_key :
    isDigitKey "12" = true ∧
    handleKeyDown "12" ⟨"12345", defaultMessage, false, true⟩
      = (⟨"1234512", defaultMessage, false, true⟩, []) ∧
    isDigitKey "5x" = true ∧
    handleKeyDown "5x" Kiosk.init = (⟨"5x", defaultMessage, false, true⟩, []) ∧
    (∀ (c : Char) (rest : List Char),
      isDigitKey ⟨c :: rest⟩ = true ↔
        (48 ≤ c.toNat ∧ c.toNat ≤ 56) ∨ (c.toNat = 57 ∧ rest = [])) ∧
    isDigitKey "" = false ∧
    (∀ c : Char, isDigitKey ⟨[c]⟩ = true ↔ c.isDigit = true) := by
  have key : ∀ (c : Char) (rest : List Char),
      isDigitKey ⟨c :: rest⟩ = true ↔
        (48 ≤ c.toNat ∧ c.toNat ≤ 56) ∨ (c.toNat = 57 ∧ rest = []) := by
    intro c rest
    have h0 : ("0" : String).data = ['0'] := rfl
    have h9 : ("9" : String).data = ['9'] := rfl
    have c0 : ('0' : Char).toNat = 48 := rfl
    have c9 : ('9' : Char).toNat = 57 := rfl
    cases rest with
    | nil =>
      simp only [isDigitKey, jsStrGe, jsStrLe, h0, h9, jsStrLt, c0, c9]
      simp
      omega
    | cons b bs =>
      simp only [isDigitKey, jsStrGe, jsStrLe, h0, h9, jsStrLt, c0, c9]
      simp
      omega
  refine ⟨by decide, by decide, by decide, by decide, key, by decide, ?_⟩
  intro c
  rw [key c []]
  have hd : c.isDigit = true ↔ 48 ≤ c.toNat ∧ c.toNat ≤ 57 := by
    have : c.isDigit = true ↔ 48 ≤ c.val ∧ c.val ≤ 57 := by
      simp [Char.isDigit]
    rw [this]
    constructor
    · rintro ⟨a, b⟩; exact ⟨a, b⟩
    · rintro ⟨a, b⟩; exact ⟨a, b⟩
  rw [hd]
  constructor
  · rintro (⟨a, b⟩ | ⟨a, _⟩)
    · exact ⟨a, by omega⟩
    · exact ⟨by omega, by omega⟩
  · rintro ⟨a, b⟩
    by_cases h : c.toNat = 57
    · exact Or.inr ⟨h, rfl⟩
    · exact Or.inl ⟨a, by omega⟩

end TimeSheet
